import Mathlib

/-!
Verification of the Farm Hub gateway repository.

The development shallowly embeds the two source files:
* `raspberry-pi/setup_complete.py` — the interactive configuration wizard
  (`interactive_config`), the nginx route-table generator and apply step
  (`configure_nginx`), and the embedded Node.js backend (`server.js` written
  by `setup_backend`: the `/api/weather` and `/api/devices` handlers).
* `ota_upload.py` — the OTA firmware/filesystem uploader (`upload_ota`).

Pure computations (string generation, result merging) are embedded as Lean
functions; effectful code is embedded as explicit state passing plus a trace
of the externally visible actions it performs.
-/

set_option maxRecDepth 2048

namespace FarmHub

/-! ## Generic string/list helpers -/

/-- ASCII upper-casing of a string, modelling Python `str.upper()` as used in
`configure_nginx` on device display names (`device.get('name', device_id).upper()`). -/
def str_upper (s : String) : String := ⟨s.data.map Char.toUpper⟩

/-- Split a character list into its lines at `'\n'` separators.  A trailing
newline yields a final empty line, mirroring how the generated configuration
text decomposes into physical lines. -/
def splitLines : List Char → List (List Char)
  | [] => [[]]
  | c :: rest =>
    if c = '\n' then [] :: splitLines rest
    else
      match splitLines rest with
      | [] => [[c]]
      | l :: ls => (c :: l) :: ls

/-- Join a list of lines, terminating every line with `'\n'`. -/
def joinLinesChar (ls : List (List Char)) : List Char :=
  ls.foldr (fun l acc => l ++ '\n' :: acc) []

/-- Boolean test: `p` is an initial segment of `l`. -/
def leadsB : List Char → List Char → Bool
  | [], _ => true
  | _ :: _, [] => false
  | a :: as, b :: bs => a == b && leadsB as bs

/-- Propositional form of `leadsB`. -/
def leads (p l : List Char) : Prop := ∃ t, p ++ t = l

/-- `p` occurs as a contiguous subsequence of `l`. -/
def containsSeq {α : Type _} (p l : List α) : Prop := ∃ s t, s ++ p ++ t = l

/-- Boolean test for `containsSeq` on character lists. -/
def containsSeqB (p : List Char) : List Char → Bool
  | [] => leadsB p []
  | c :: l => leadsB p (c :: l) || containsSeqB p l

/-! ## Data model: the device registry

`interactive_config` stores, for each device identifier, the mapping
`{name, ip, port, type, icon, description}` (setup_complete.py lines 221-228);
`save_config` writes it to `/etc/farmhub/config.json`, which both
`configure_nginx` and the backend read.  A registry is an association list
keyed by device identifier, in insertion order. -/

structure Device where
  name : String
  ip : String
  port : Nat
  type : String
  icon : String
  description : String
deriving DecidableEq

/-- A device registry: identifier-keyed entries in iteration order. -/
abbrev Registry := List (String × Device)

/-! ## The `/api/devices` aggregator (embedded server.js, lines 496-514)

For each device the handler runs, inside `try`:
`fetch` with a 3000 ms `AbortController` timeout, then `response.json()`.
`fetch` resolves for *any* HTTP status and rejects only on network
errors/abort; `response.json()` rejects on a malformed body.  The `catch`
produces `{...device, status: {online: false}}`; the success path produces
`{...device, status: {...status, online: true}}`.  The HTTP status code is
never inspected.  An individual query's observable outcome: -/

inductive FetchOutcome (α : Type _) where
  /-- The 3-second AbortController timeout fired. -/
  | timeout
  /-- Network failure (connection refused, reset, DNS, ...). -/
  | netError
  /-- An HTTP response arrived with the given status; `body` is the result of
  JSON-parsing it (`none` when the body is malformed, making
  `response.json()` throw). -/
  | response (status : Nat) (body : Option α)

/-- The value produced by `await fetch(...)` then `await response.json()`,
`none` when either await threw (so control reaches the `catch`).  The status
code is not consulted anywhere in the handler. -/
def device_query_result {α : Type _} : FetchOutcome α → Option α
  | .timeout => none
  | .netError => none
  | .response _ body => body

/-- One entry of the aggregated response: the spread device metadata plus the
`status` object (`fields` are the parsed telemetry when present; `online` is
the flag the handler appends last, overriding any `online` field in the
telemetry). -/
structure DeviceEntry (α : Type _) where
  device : Device
  statusFields : Option α
  online : Bool
deriving DecidableEq

/-- Build one aggregated entry from a settled query. -/
def mk_entry {α : Type _} (d : Device) : Option α → DeviceEntry α
  | some st => ⟨d, some st, true⟩
  | none => ⟨d, none, false⟩

/-- The `/api/devices` handler: `Promise.all` over `Object.entries(devices)`,
assembling `results` keyed by device identifier.  Each per-device promise is
wrapped in `try`/`catch` and therefore never rejects, so `Promise.all` always
resolves and `res.json(results)` always runs. -/
def api_devices {α : Type _} (devices : Registry) (o : String → FetchOutcome α) :
    List (String × DeviceEntry α) :=
  devices.map (fun p => (p.1, mk_entry p.2 (device_query_result (o p.1))))

/-! ### Timing model of the fan-out

The handler starts every per-device promise before awaiting any of them (the
`map` callback runs synchronously up to its first `await`, issuing `fetch`),
so all queries are measured from a common start.  The `AbortController`
timer covers only the `fetch` await: `clearTimeout(timeout)` runs as soon as
the response headers have arrived, *before* `await response.json()`, so the
body read proceeds with no timer at all.  A task therefore settles at
3000 ms (abort) when its `fetch` has not settled by then, and otherwise at
its fetch latency plus — when headers arrived — its body-read latency, which
nothing bounds; `Promise.all` settles when the last task has settled. -/

/-- One per-device query execution: either the `fetch` await settles by
rejecting (connection refused/reset) after `fetchLatency` ms, or it resolves
with response headers after `fetchLatency` ms and `await response.json()`
settles after `bodyLatency` further ms, yielding `body` (throwing when
`body = none`).  When the fetch is still pending at 3000 ms the abort timer
fires first (at exactly 3000 ms the model lets the abort win). -/
inductive QueryExec (α : Type _) where
  | noHeaders (fetchLatency : Nat)
  | headers (fetchLatency bodyLatency : Nat) (status : Nat) (body : Option α)
deriving DecidableEq

/-- The `FetchOutcome` an execution delivers to the handler: the abort can
only fire while the `fetch` itself is pending, since the timer is cleared
the moment headers arrive. -/
def exec_outcome {α : Type _} : QueryExec α → FetchOutcome α
  | .noHeaders t => if 3000 ≤ t then .timeout else .netError
  | .headers t _ s body => if 3000 ≤ t then .timeout else .response s body

/-- Settle time of one per-device query: the 3000 ms abort timer caps the
wait for the `fetch`, but once headers arrive the timer has been cleared and
the body read runs to completion however long it takes. -/
def task_settle {α : Type _} : QueryExec α → Nat
  | .noHeaders t => min t 3000
  | .headers t b _ _ => if 3000 ≤ t then 3000 else t + b

/-- The body-read time spent after the timer has been cleared: zero unless
headers arrived within the timeout. -/
def body_after_headers {α : Type _} : QueryExec α → Nat
  | .noHeaders _ => 0
  | .headers t b _ _ => if 3000 ≤ t then 0 else b

/-- Settle time of `Promise.all`: the maximum of the task settle times. -/
def promise_all_settle (ts : List Nat) : Nat := ts.foldr max 0

/-- Wall-clock completion time of the `/api/devices` fan-out, given each
device's query execution. -/
def api_devices_wallclock {α : Type _} (devices : Registry)
    (ex : String → QueryExec α) : Nat :=
  promise_all_settle (devices.map (fun p => task_settle (ex p.1)))

/-! ## The `/api/weather` handler and its TTL cache (server.js, lines 459-493)

`weatherCache` is a `node-cache` with `stdTTL` of `cache_minutes * 60`
seconds: a `get` returns the stored value only while the entry is younger
than the TTL, and expired entries behave as absent (lazy expiry).  The
handler resolves coordinates with JavaScript `||` (empty strings are falsy),
answers 400 when either coordinate is missing, serves a cache hit without
fetching, and otherwise performs exactly one upstream fetch: on success the
value is stored and returned, on failure it answers 500 without touching the
cache. -/

/-- JavaScript truthiness of an optional string: absent and `""` are falsy. -/
def js_truthy : Option String → Option String
  | some s => if s = "" then none else some s
  | none => none

/-- JavaScript `a || b` restricted to the handler's use: the first truthy
operand, `none` when both are falsy. -/
def js_or (a b : Option String) : Option String :=
  match js_truthy a with
  | some s => some s
  | none => js_truthy b

/-- TTL-cache state: `(key, value, insertion time)` triples, newest first. -/
abbrev Cache (α : Type _) := List (String × α × Nat)

/-- `cache.get(key)` with lazy expiry: the newest entry for `key`, visible
only while `now < insertion + ttl`. -/
def cache_get {α : Type _} (c : Cache α) (ttl now : Nat) (k : String) : Option α :=
  match c.find? (fun e => e.1 == k) with
  | some e => if now < e.2.2 + ttl then some e.2.1 else none
  | none => none

/-- `cache.set(key, value)`: the new entry shadows any older one. -/
def cache_set {α : Type _} (c : Cache α) (k : String) (v : α) (now : Nat) : Cache α :=
  (k, v, now) :: c

/-- The weather config section (`config.weather` may be missing fields). -/
structure WeatherCfg where
  latitude : Option String
  longitude : Option String

/-- The three responses the `/api/weather` handler can produce. -/
inductive WeatherResp (α : Type _) where
  /-- `res.json(data)`. -/
  | ok (data : α)
  /-- `res.status(400).json({ error: 'Missing coordinates' })`. -/
  | missingCoords
  /-- `res.status(500).json({ error: 'Weather fetch failed' })`. -/
  | fetchFailed
deriving DecidableEq

/-- The `/api/weather` handler for one request.  `upstream` is the outcome of
the single `fetch`+`json()` of the Open-Meteo URL, consulted only on a cache
miss.  Returns the response, the cache after the request, and the number of
upstream fetches performed. -/
def api_weather {α : Type _} (cfg : WeatherCfg) (qlat qlon : Option String)
    (ttl now : Nat) (cache : Cache α) (upstream : Except Unit α) :
    WeatherResp α × Cache α × Nat :=
  match js_or qlat cfg.latitude, js_or qlon cfg.longitude with
  | some lat, some lon =>
    let key := "weather_" ++ lat ++ "_" ++ lon
    match cache_get cache ttl now key with
    | some d => (.ok d, cache, 0)
    | none =>
      match upstream with
      | .error _ => (.fetchFailed, cache, 1)
      | .ok d => (.ok d, cache_set cache key d now, 1)
  | _, _ => (.missingCoords, cache, 0)

/-! ## The nginx apply step of `configure_nginx` (setup_complete.py, lines 400-416)

After generating the text, `configure_nginx` writes
`/etc/nginx/sites-available/farmhub`, re-points the `sites-enabled/farmhub`
symlink, removes `sites-enabled/default`, runs `nginx -t` (via `run_command`
with `check=True`, so a rejection raises `CalledProcessError`, which
propagates out of `configure_nginx` — `main` prints the error and exits),
and only then reloads nginx.  The state tracks the on-disk site files and
the configuration the running nginx process is actually serving. -/

structure NginxState where
  sites_available : Option String
  sites_enabled : Option String
  default_enabled : Bool
  active : Option String
deriving DecidableEq

/-- The externally visible steps of the apply sequence. -/
inductive NginxCmd where
  | write_site
  | enable_site
  | remove_default
  | test_config
  | reload
deriving DecidableEq

/-- On-disk state after the three file operations that precede validation. -/
def nginx_written (st : NginxState) (cfg : String) : NginxState :=
  { st with sites_available := some cfg, sites_enabled := some cfg, default_enabled := false }

/-- The apply step: write, enable, remove default, `nginx -t`, reload.
Returns `Except.error` (the raised `CalledProcessError`) with the state at
the abort point when the validator rejects, plus the trace of steps run. -/
def configure_nginx_apply (st : NginxState) (cfg : String) (validator : String → Bool) :
    Except NginxState NginxState × List NginxCmd :=
  if validator cfg then
    (Except.ok { nginx_written st cfg with active := some cfg },
     [NginxCmd.write_site, NginxCmd.enable_site, NginxCmd.remove_default,
      NginxCmd.test_config, NginxCmd.reload])
  else
    (Except.error (nginx_written st cfg),
     [NginxCmd.write_site, NginxCmd.enable_site, NginxCmd.remove_default,
      NginxCmd.test_config])

/-- A concrete previously applied state used to exhibit the partial apply. -/
def c7_prior_state : NginxState :=
  { sites_available := some "old farmhub site", sites_enabled := some "old farmhub site",
    default_enabled := true, active := some "old farmhub site" }

/-! ## The OTA uploader (`ota_upload.py`, `upload_ota`)

Each branch posts the binary as the single multipart field `update` to
`{base_url}/ota`; the filesystem branch additionally sends the form field
`type=filesystem`.  Success of a branch requires HTTP 200 and a JSON body
whose `status` field equals `"success"`; request *and* JSON-decode errors are
caught as `RequestException` and fail the branch.  After a successful
firmware upload the script sleeps 10 seconds for the reboot; the filesystem
branch has no such sleep. -/

/-- Outcome of one `requests.post`: a raised `RequestException`, or a
response with its status and the parsed JSON body (`none` if the body is not
JSON; the inner option is the body's `status` field, `none` if absent). -/
inductive OtaOutcome where
  | reqError
  | ok (status : Nat) (body : Option (Option String))
deriving DecidableEq

/-- Inputs determining one branch of `upload_ota`: whether the local file
exists, and what the device answers. -/
structure OtaUpload where
  fileExists : Bool
  outcome : OtaOutcome
deriving DecidableEq

/-- Externally visible actions of `upload_ota`. -/
inductive OtaAction where
  | post (path fileField : String) (typeField : Option String)
  | sleep (seconds : Nat)
deriving DecidableEq

/-- Whether one branch of `upload_ota` succeeds: file present, HTTP 200, JSON
body present with `status == "success"`. -/
def ota_branch_success (u : OtaUpload) : Bool :=
  u.fileExists &&
    match u.outcome with
    | .ok 200 (some (some s)) => s == "success"
    | _ => false

/-- The filesystem part of `upload_ota` (lines 51-80), continuing from the
firmware part's trace.  No sleep follows a successful filesystem upload. -/
def upload_ota_fs (trace : List OtaAction) : Option OtaUpload → Bool × List OtaAction
  | none => (true, trace)
  | some u =>
    if !u.fileExists then (false, trace)
    else
      let trace := trace ++ [OtaAction.post "/ota" "update" (some "filesystem")]
      match u.outcome with
      | .reqError => (false, trace)
      | .ok status body =>
        if status == 200 then
          match body with
          | none => (false, trace)
          | some field =>
            if field == some "success" then (true, trace)
            else (false, trace)
        else (false, trace)

/-- `upload_ota(ip, firmware_path, filesystem_path)`: run the firmware branch
(lines 18-48), then the filesystem branch, returning the reported success and
the trace of posts and sleeps. -/
def upload_ota (fw fs : Option OtaUpload) : Bool × List OtaAction :=
  match fw with
  | none => upload_ota_fs [] fs
  | some u =>
    if !u.fileExists then (false, [])
    else
      let trace := [OtaAction.post "/ota" "update" none]
      match u.outcome with
      | .reqError => (false, trace)
      | .ok status body =>
        if status == 200 then
          match body with
          | none => (false, trace)
          | some field =>
            if field == some "success" then
              upload_ota_fs (trace ++ [OtaAction.sleep 10]) fs
            else (false, trace)
        else (false, trace)

/-- A filesystem upload that the device accepts. -/
def ota_fs_success_input : OtaUpload :=
  { fileExists := true, outcome := OtaOutcome.ok 200 (some (some "success")) }

/-! ## The `interactive_config` devices table (setup_complete.py, lines 182-211)

The wizard's `devices` table maps each identifier to
`{name, icon, type, description}` — no entry defines `default_ip` — yet the
device loop's first statement evaluates `device_info['default_ip']` inside
the prompt f-string, before any input is read. -/

/-- The literal `devices` table of `interactive_config`. -/
def devices_table : List (String × List (String × String)) :=
  [("greenhouse",
    [("name", "Greenhouse"), ("icon", "🌱"), ("type", "greenhouse"),
     ("description", "Main greenhouse - vegetables & seedlings")]),
   ("coop1",
    [("name", "Coop Alpha"), ("icon", "🐔"), ("type", "chicken_coop"),
     ("description", "Layer hens - egg production")]),
   ("coop2",
    [("name", "Coop Beta"), ("icon", "🐓"), ("type", "chicken_coop"),
     ("description", "Broilers - meat production")]),
   ("coop3",
    [("name", "Coop Gamma"), ("icon", "🐣"), ("type", "chicken_coop"),
     ("description", "Nursery - chicks & young birds")])]

/-- Python `dict[key]` as an option (to model the possible `KeyError`). -/
def dictGet (d : List (String × String)) (k : String) : Option String :=
  (d.find? (fun e => e.1 == k)).map (fun e => e.2)

/-- The device-configuration loop of `interactive_config`, reduced to the
accesses that decide whether it can complete: for each table entry it first
evaluates `device_info['default_ip']`; a missing key raises `KeyError`,
aborting the wizard before any registry entry is produced. -/
def interactive_config_device_loop :
    List (String × List (String × String)) → Except String (List (String × String))
  | [] => Except.ok []
  | (id, info) :: rest =>
    match dictGet info "default_ip" with
    | none => Except.error "KeyError: 'default_ip'"
    | some ip =>
      match interactive_config_device_loop rest with
      | Except.error e => Except.error e
      | Except.ok acc => Except.ok ((id, ip) :: acc)

/-! ## The nginx route-table generator (`configure_nginx`, lines 290-398)

The generated text is a pure function of the registry: a fixed header
(including the two `limit_req_zone` declarations), one `upstream` block per
device, a fixed middle section (redirect server, TLS parameters, security
headers, dashboard and `/api/` locations), two `location` blocks per device,
and a fixed tail.  The strings below reproduce the Python f-strings exactly
(with `{{`/`}}` unescaped to braces); `device.get('name', device_id)`,
`device.get('ip', '127.0.0.1')` and `device.get('port', 80)` always find
their keys in a registry written by `interactive_config`, so they are
embedded as the corresponding `Device` fields. -/

/-- One `upstream` block (source lines 302-307). -/
def upstream_block (p : String × Device) : String :=
  "\nupstream " ++ p.1 ++ " \x7b\n    server " ++ p.2.ip ++ ":" ++ toString p.2.port ++ ";\n    keepalive 2;\n\x7d\n"

/-- The two `location` blocks of one device (source lines 309-331). -/
def location_block (p : String × Device) : String :=
  "\n    # ==================== " ++ str_upper p.2.name ++ " ====================\n    location /" ++ p.1 ++ "/ \x7b\n        proxy_pass http://" ++ p.1 ++ "/;\n        proxy_http_version 1.1;\n        proxy_set_header Host $host;\n        proxy_set_header X-Real-IP $remote_addr;\n        proxy_set_header X-Forwarded-For $proxy_add_x_forwarded_for;\n        proxy_set_header X-Forwarded-Proto $scheme;\n        proxy_connect_timeout 5s;\n        proxy_read_timeout 60s;\n    \x7d\n\n    location /" ++ p.1 ++ "/ws \x7b\n        proxy_pass http://" ++ p.1 ++ "/ws;\n        proxy_http_version 1.1;\n        proxy_set_header Upgrade $http_upgrade;\n        proxy_set_header Connection \"upgrade\";\n        proxy_set_header Host $host;\n        proxy_set_header X-Real-IP $remote_addr;\n        proxy_read_timeout 86400;\n    \x7d\n"

/-- Fixed text before the `{upstreams}` substitution. -/
def nginx_conf_header : String :=
  "# Farm Hub - Unified IoT Dashboard\n# Auto-generated configuration\n\n# Rate limiting\nlimit_req_zone $binary_remote_addr zone=api_limit:10m rate=10r/s;\nlimit_req_zone $binary_remote_addr zone=ws_limit:10m rate=5r/s;\n\n# Upstream definitions\n"

/-- Fixed text between `{upstreams}` and `{locations}` (one f-string piece
in the source, split here into labelled chunks whose concatenation is the
exact text). -/
def nginx_mid_1 : String :=
  "# HTTP -> HTTPS redirect\nserver \x7b\n    listen 80;\n    server_name _;\n    return 301 https://$host$request_uri;\n\x7d\n\n# Main HTTPS server\nserver \x7b\n    listen 443 ssl http2;\n    server_name _;\n\n"

/-- Chunk 2 of the fixed middle section. -/
def nginx_mid_2 : String :=
  "    # SSL Configuration\n    ssl_certificate /etc/nginx/ssl/farmhub.crt;\n    ssl_certificate_key /etc/nginx/ssl/farmhub.key;\n    ssl_protocols TLSv1.2 TLSv1.3;\n"

/-- Chunk 3 of the fixed middle section. -/
def nginx_mid_3 : String :=
  "    ssl_ciphers ECDHE-ECDSA-AES128-GCM-SHA256:ECDHE-RSA-AES128-GCM-SHA256;\n    ssl_prefer_server_ciphers off;\n    ssl_session_cache shared:SSL:10m;\n"

/-- Chunk 4 of the fixed middle section. -/
def nginx_mid_4 : String :=
  "\n"

/-- Chunk 5 of the fixed middle section. -/
def nginx_mid_5 : String :=
  "    # Security headers\n    add_header X-Frame-Options \"SAMEORIGIN\" always;\n    add_header X-Content-Type-Options \"nosniff\" always;\n\n"

/-- Chunk 6 of the fixed middle section. -/
def nginx_mid_6 : String :=
  "    # Gzip\n    gzip on;\n    gzip_types text/plain text/css application/json application/javascript;\n    gzip_min_length 1000;\n\n    # Root for dashboard\n    root /var/www/farmhub;\n    index index.html;\n\n"

/-- Chunk 7 of the fixed middle section. -/
def nginx_mid_7 : String :=
  "    # Main dashboard\n    location / \x7b\n        try_files $uri $uri/ /index.html;\n    \x7d\n\n    # API endpoints (Pi backend)\n    location /api/ \x7b\n"

/-- Chunk 8 of the fixed middle section. -/
def nginx_mid_8 : String :=
  "        limit_req zone=api_limit burst=10 nodelay;\n        proxy_pass http://127.0.0.1:3000;\n        proxy_http_version 1.1;\n        proxy_set_header Host $host;\n"

/-- Chunk 9 of the fixed middle section. -/
def nginx_mid_9 : String :=
  "    \x7d\n\n"

/-- The full fixed text between `{upstreams}` and `{locations}`. -/
def nginx_conf_mid : String :=
  "\n\n" ++ nginx_mid_1 ++ nginx_mid_2 ++ nginx_mid_3 ++ nginx_mid_4 ++ nginx_mid_5
    ++ nginx_mid_6 ++ nginx_mid_7 ++ nginx_mid_8 ++ nginx_mid_9 ++ "    "

/-- Fixed text after the `{locations}` substitution. -/
def nginx_conf_tail : String :=
  "\n\n    # Error pages\n    error_page 502 503 504 /error.html;\n    location = /error.html \x7b\n        internal;\n        root /var/www/farmhub;\n    \x7d\n\x7d\n"

/-- The full generated configuration text (`nginx_config` in the source):
the header, the `+=`-accumulated upstream blocks in registry iteration
order, the middle section, the accumulated location blocks, and the tail. -/
def nginx_config (devices : Registry) : String :=
  nginx_conf_header ++ String.join (devices.map upstream_block) ++ nginx_conf_mid
    ++ String.join (devices.map location_block) ++ nginx_conf_tail

/-! ### Line-level view of the generated text -/

/-- The physical lines contributed by the fixed header. -/
def header_lines : List (List Char) :=
  ["# Farm Hub - Unified IoT Dashboard".data,
   "# Auto-generated configuration".data,
   "".data,
   "# Rate limiting".data,
   "limit_req_zone $binary_remote_addr zone=api_limit:10m rate=10r/s;".data,
   "limit_req_zone $binary_remote_addr zone=ws_limit:10m rate=5r/s;".data,
   "".data,
   "# Upstream definitions".data]

/-- The physical lines of chunk 1 of the middle section. -/
def mid_lines_1 : List (List Char) :=
  ["# HTTP -> HTTPS redirect".data,
   "server \x7b".data,
   "    listen 80;".data,
   "    server_name _;".data,
   "    return 301 https://$host$request_uri;".data,
   "\x7d".data,
   "".data,
   "# Main HTTPS server".data,
   "server \x7b".data,
   "    listen 443 ssl http2;".data,
   "    server_name _;".data,
   "".data]

/-- The physical lines of chunk 2 of the middle section. -/
def mid_lines_2 : List (List Char) :=
  ["    # SSL Configuration".data,
   "    ssl_certificate /etc/nginx/ssl/farmhub.crt;".data,
   "    ssl_certificate_key /etc/nginx/ssl/farmhub.key;".data,
   "    ssl_protocols TLSv1.2 TLSv1.3;".data]

/-- The physical lines of chunk 3 of the middle section. -/
def mid_lines_3 : List (List Char) :=
  ["    ssl_ciphers ECDHE-ECDSA-AES128-GCM-SHA256:ECDHE-RSA-AES128-GCM-SHA256;".data,
   "    ssl_prefer_server_ciphers off;".data,
   "    ssl_session_cache shared:SSL:10m;".data]

/-- The physical lines of chunk 4 of the middle section. -/
def mid_lines_4 : List (List Char) :=
  ["".data]

/-- The physical lines of chunk 5 of the middle section. -/
def mid_lines_5 : List (List Char) :=
  ["    # Security headers".data,
   "    add_header X-Frame-Options \"SAMEORIGIN\" always;".data,
   "    add_header X-Content-Type-Options \"nosniff\" always;".data,
   "".data]

/-- The physical lines of chunk 6 of the middle section. -/
def mid_lines_6 : List (List Char) :=
  ["    # Gzip".data,
   "    gzip on;".data,
   "    gzip_types text/plain text/css application/json application/javascript;".data,
   "    gzip_min_length 1000;".data,
   "".data,
   "    # Root for dashboard".data,
   "    root /var/www/farmhub;".data,
   "    index index.html;".data,
   "".data]

/-- The physical lines of chunk 7 of the middle section. -/
def mid_lines_7 : List (List Char) :=
  ["    # Main dashboard".data,
   "    location / \x7b".data,
   "        try_files $uri $uri/ /index.html;".data,
   "    \x7d".data,
   "".data,
   "    # API endpoints (Pi backend)".data,
   "    location /api/ \x7b".data]

/-- The physical lines of chunk 8 of the middle section. -/
def mid_lines_8 : List (List Char) :=
  ["        limit_req zone=api_limit burst=10 nodelay;".data,
   "        proxy_pass http://127.0.0.1:3000;".data,
   "        proxy_http_version 1.1;".data,
   "        proxy_set_header Host $host;".data]

/-- The physical lines of chunk 9 of the middle section. -/
def mid_lines_9 : List (List Char) :=
  ["    \x7d".data,
   "".data]

/-- The physical lines of the fixed middle section. -/
def mid_lines : List (List Char) :=
  mid_lines_1 ++ mid_lines_2 ++ mid_lines_3 ++ mid_lines_4 ++ mid_lines_5
    ++ mid_lines_6 ++ mid_lines_7 ++ mid_lines_8 ++ mid_lines_9

/-- The physical lines of the fixed tail. -/
def tail_lines : List (List Char) :=
  ["    # Error pages".data,
   "    error_page 502 503 504 /error.html;".data,
   "    location = /error.html \x7b".data,
   "        internal;".data,
   "        root /var/www/farmhub;".data,
   "    \x7d".data,
   "\x7d".data]

/-- The lines contributed by one device's `upstream` block (the leading
empty line comes from the block's leading newline). -/
def upstream_lines (p : String × Device) : List (List Char) :=
  [[],
   "upstream ".data ++ p.1.data ++ " \x7b".data,
   "    server ".data ++ p.2.ip.data ++ ":".data ++ (toString p.2.port).data ++ ";".data,
   "    keepalive 2;".data,
   "\x7d".data]

/-- The lines contributed by one device's pair of `location` blocks
(without the block's leading empty line, which is accounted for by the
assembly of `nginx_lines`). -/
def location_lines (p : String × Device) : List (List Char) :=
  ["    # ==================== ".data ++ (str_upper p.2.name).data ++ " ====================".data,
   "    location /".data ++ p.1.data ++ "/ \x7b".data,
   "        proxy_pass http://".data ++ p.1.data ++ "/;".data,
   "        proxy_http_version 1.1;".data,
   "        proxy_set_header Host $host;".data,
   "        proxy_set_header X-Real-IP $remote_addr;".data,
   "        proxy_set_header X-Forwarded-For $proxy_add_x_forwarded_for;".data,
   "        proxy_set_header X-Forwarded-Proto $scheme;".data,
   "        proxy_connect_timeout 5s;".data,
   "        proxy_read_timeout 60s;".data,
   "    \x7d".data,
   [],
   "    location /".data ++ p.1.data ++ "/ws \x7b".data,
   "        proxy_pass http://".data ++ p.1.data ++ "/ws;".data,
   "        proxy_http_version 1.1;".data,
   "        proxy_set_header Upgrade $http_upgrade;".data,
   "        proxy_set_header Connection \"upgrade\";".data,
   "        proxy_set_header Host $host;".data,
   "        proxy_set_header X-Real-IP $remote_addr;".data,
   "        proxy_read_timeout 86400;".data,
   "    \x7d".data]

/-- The lines of a device's location blocks strictly between the two
`location` opening lines. -/
def loc_inner_a (p : String × Device) : List (List Char) :=
  ["        proxy_pass http://".data ++ p.1.data ++ "/;".data,
   "        proxy_http_version 1.1;".data,
   "        proxy_set_header Host $host;".data,
   "        proxy_set_header X-Real-IP $remote_addr;".data,
   "        proxy_set_header X-Forwarded-For $proxy_add_x_forwarded_for;".data,
   "        proxy_set_header X-Forwarded-Proto $scheme;".data,
   "        proxy_connect_timeout 5s;".data,
   "        proxy_read_timeout 60s;".data,
   "    \x7d".data,
   []]

/-- The lines of a device's location blocks after the WebSocket `location`
opening line, including the separating empty line that follows the block. -/
def loc_inner_b (p : String × Device) : List (List Char) :=
  ["        proxy_pass http://".data ++ p.1.data ++ "/ws;".data,
   "        proxy_http_version 1.1;".data,
   "        proxy_set_header Upgrade $http_upgrade;".data,
   "        proxy_set_header Connection \"upgrade\";".data,
   "        proxy_set_header Host $host;".data,
   "        proxy_set_header X-Real-IP $remote_addr;".data,
   "        proxy_read_timeout 86400;".data,
   "    \x7d".data,
   []]

/-- The complete line decomposition of `nginx_config` (established by
`splitLines_nginx_config`). -/
def nginx_lines (devices : Registry) : List (List Char) :=
  header_lines ++ devices.flatMap upstream_lines ++ ([] :: [] :: mid_lines)
    ++ ("    ".data :: devices.flatMap (fun p => location_lines p ++ [[]]))
    ++ ([] :: tail_lines ++ [[]])

/-! ### Patterns and registry well-formedness -/

/-- The `upstream` declaration line of a device. -/
def upat (id : String) : List Char := "upstream ".data ++ id.data ++ " \x7b".data

/-- The common opening of both location lines of a device: its path prefix. -/
def loc_root_pat (id : String) : List Char := "    location /".data ++ id.data ++ "/".data

/-- The plain-proxy location opening line of a device. -/
def loc_plain_pat (id : String) : List Char :=
  "    location /".data ++ id.data ++ "/ \x7b".data

/-- The WebSocket-upgrade location opening line of a device. -/
def loc_ws_pat (id : String) : List Char :=
  "    location /".data ++ id.data ++ "/ws \x7b".data

/-- The declaration line of the general API rate-limit zone. -/
def api_zone_line : List Char :=
  "limit_req_zone $binary_remote_addr zone=api_limit:10m rate=10r/s;".data

/-- The declaration line of the WebSocket rate-limit zone. -/
def ws_zone_line : List Char :=
  "limit_req_zone $binary_remote_addr zone=ws_limit:10m rate=5r/s;".data

/-- The generated `/api/` location opening line. -/
def api_loc_line : List Char := "    location /api/ \x7b".data

/-- The `limit_req` directive referencing the API zone. -/
def api_limit_line : List Char := "        limit_req zone=api_limit burst=10 nodelay;".data

/-- What a `limit_req` directive referencing the WebSocket zone would
contain. -/
def ws_ref_pat : List Char := "limit_req zone=ws_limit".data

/-- Characters allowed in a device identifier (the wizard's identifiers are
`greenhouse`, `coop1`, `coop2`, `coop3`). -/
def safe_id_char (c : Char) : Bool := c.isAlphanum || c == '_'

/-- Characters of an upper-cased display name (`GREENHOUSE`, `COOP ALPHA`, ...). -/
def safe_name_char (c : Char) : Bool := c.isUpper || c == ' '

/-- Characters of a dotted-decimal device address. -/
def safe_ip_char (c : Char) : Bool := c.isDigit || c == '.'

/-- Well-formedness of one registry entry: a nonempty identifier made of
alphanumerics/underscores that does not collide with the reserved `api`
path, an upper-casable display name, and a numeric dotted address. -/
def wf_device (p : String × Device) : Prop :=
  p.1 ≠ "" ∧ p.1 ≠ "api" ∧ (∀ c ∈ p.1.data, safe_id_char c = true)
    ∧ (∀ c ∈ (str_upper p.2.name).data, safe_name_char c = true)
    ∧ (∀ c ∈ p.2.ip.data, safe_ip_char c = true)
    ∧ (∀ c ∈ (toString p.2.port).data, c.isDigit = true)

/-- Well-formedness of a registry: distinct identifiers, all entries
well-formed. -/
def wf_registry (devices : Registry) : Prop :=
  (devices.map Prod.fst).Nodup ∧ ∀ p ∈ devices, wf_device p

instance (p : String × Device) : Decidable (wf_device p) := by
  unfold wf_device
  infer_instance

instance (devices : Registry) : Decidable (wf_registry devices) := by
  unfold wf_registry
  infer_instance

/-! ## Sample inputs used by witnesses and counterexamples -/

/-- A concrete greenhouse device. -/
def sample_greenhouse : Device :=
  { name := "Greenhouse", ip := "10.0.0.163", port := 80, type := "greenhouse",
    icon := "🌱", description := "Main greenhouse - vegetables & seedlings" }

/-- A concrete coop device. -/
def sample_coop : Device :=
  { name := "Coop Alpha", ip := "10.0.0.164", port := 80, type := "chicken_coop",
    icon := "🐔", description := "Layer hens - egg production" }

/-- A concrete two-device registry. -/
def sample_registry : Registry :=
  [("greenhouse", sample_greenhouse), ("coop1", sample_coop)]

/-! ## Helper lemmas -/

theorem foldr_max_le (l : List Nat) (b : Nat) (h : ∀ x ∈ l, x ≤ b) : l.foldr max 0 ≤ b := by
  induction l with
  | nil => simp
  | cons a t ih =>
    simp only [List.foldr_cons]
    have ha := h a (by simp)
    have ht := ih (fun x hx => h x (by simp [hx]))
    omega

theorem foldr_max_map_le {β : Type _} (l : List β) (f g : β → Nat) (c : Nat)
    (h : ∀ x ∈ l, f x ≤ c + g x) :
    (l.map f).foldr max 0 ≤ c + (l.map g).foldr max 0 := by
  induction l with
  | nil => simp
  | cons a t ih =>
    simp only [List.map_cons, List.foldr_cons]
    have ha : f a ≤ c + max (g a) ((t.map g).foldr max 0) :=
      le_trans (h a (by simp)) (Nat.add_le_add_left (le_max_left _ _) c)
    have ht : (t.map f).foldr max 0 ≤ c + max (g a) ((t.map g).foldr max 0) :=
      le_trans (ih (fun x hx => h x (by simp [hx])))
        (Nat.add_le_add_left (le_max_right _ _) c)
    exact max_le ha ht

/-! ### Character-class facts -/

theorem safe_id_char_spec (c : Char) (h : safe_id_char c = true) :
    c ≠ '\n' ∧ c ≠ '/' ∧ c ≠ ' ' ∧ c ≠ '=' ∧ c ≠ '\x7b' := by
  refine ⟨?_, ?_, ?_, ?_, ?_⟩ <;> (rintro rfl; revert h; decide)

theorem safe_name_char_spec (c : Char) (h : safe_name_char c = true) :
    c ≠ '\n' ∧ c ≠ 'l' := by
  constructor
  · rintro rfl; revert h; decide
  · rintro rfl; revert h; decide

theorem safe_ip_char_spec (c : Char) (h : safe_ip_char c = true) :
    c ≠ '\n' ∧ c ≠ '=' := by
  constructor
  · rintro rfl; revert h; decide
  · rintro rfl; revert h; decide

theorem digit_char_spec (c : Char) (h : c.isDigit = true) :
    c ≠ '\n' ∧ c ≠ '=' := by
  constructor
  · rintro rfl; revert h; decide
  · rintro rfl; revert h; decide

/-! ### `splitLines` decomposition lemmas -/

theorem splitLines_newline (rest : List Char) :
    splitLines ('\n' :: rest) = [] :: splitLines rest := by
  simp [splitLines]

theorem splitLines_line (l rest : List Char) (h : ∀ c ∈ l, c ≠ '\n') :
    splitLines (l ++ '\n' :: rest) = l :: splitLines rest := by
  induction l with
  | nil => simp [splitLines]
  | cons c t ih =>
    have hc : c ≠ '\n' := h c (by simp)
    have ht := ih (fun x hx => h x (by simp [hx]))
    rw [List.cons_append]
    simp only [splitLines, if_neg hc, ht]

theorem splitLines_joinLinesChar (L : List (List Char)) (rest : List Char)
    (h : ∀ l ∈ L, ∀ c ∈ l, c ≠ '\n') :
    splitLines (joinLinesChar L ++ rest) = L ++ splitLines rest := by
  induction L with
  | nil => simp [joinLinesChar]
  | cons a t ih =>
    have ha := h a (by simp)
    have ht := ih (fun l hl => h l (by simp [hl]))
    simp only [joinLinesChar, List.foldr_cons, List.append_assoc, List.cons_append]
    rw [splitLines_line a _ ha]
    rw [show (t.foldr (fun l acc => l ++ '\n' :: acc) []) = joinLinesChar t from rfl, ht]

/-! ### String-level decomposition of the generated text -/

theorem string_append_empty (s : String) : s ++ "" = s := by
  cases s with
  | mk d => exact congrArg String.mk (List.append_nil d)

theorem string_empty_append (s : String) : "" ++ s = s := by
  cases s with
  | mk d => rfl

theorem string_foldl_append (l : List String) (init : String) :
    l.foldl (· ++ ·) init = init ++ String.join l := by
  induction l generalizing init with
  | nil =>
    show init = init ++ String.join []
    rw [show String.join [] = "" from rfl, string_append_empty]
  | cons b t ih =>
    show (b :: t).foldl (· ++ ·) init = init ++ String.join (b :: t)
    rw [List.foldl_cons, ih (init ++ b)]
    have hj : String.join (b :: t) = b ++ String.join t := by
      show (b :: t).foldl (· ++ ·) "" = b ++ String.join t
      rw [List.foldl_cons, ih ("" ++ b), string_empty_append]
    rw [hj, String.append_assoc]

theorem string_join_cons (a : String) (l : List String) :
    String.join (a :: l) = a ++ String.join l := by
  show (a :: l).foldl (· ++ ·) "" = a ++ String.join l
  rw [List.foldl_cons, string_foldl_append, string_empty_append]

theorem nginx_conf_header_data :
    nginx_conf_header.data = joinLinesChar header_lines := by decide

theorem joinLinesChar_append (L1 L2 : List (List Char)) :
    joinLinesChar (L1 ++ L2) = joinLinesChar L1 ++ joinLinesChar L2 := by
  induction L1 with
  | nil => simp [joinLinesChar]
  | cons a t ih =>
    rw [List.cons_append,
      show joinLinesChar (a :: (t ++ L2)) = a ++ '\n' :: joinLinesChar (t ++ L2) from rfl,
      ih, show joinLinesChar (a :: t) = a ++ '\n' :: joinLinesChar t from rfl]
    simp [List.append_assoc]

theorem nginx_mid_1_data : nginx_mid_1.data = joinLinesChar mid_lines_1 := by decide

theorem nginx_mid_2_data : nginx_mid_2.data = joinLinesChar mid_lines_2 := by decide

theorem nginx_mid_3_data : nginx_mid_3.data = joinLinesChar mid_lines_3 := by decide

theorem nginx_mid_4_data : nginx_mid_4.data = joinLinesChar mid_lines_4 := by decide

theorem nginx_mid_5_data : nginx_mid_5.data = joinLinesChar mid_lines_5 := by decide

theorem nginx_mid_6_data : nginx_mid_6.data = joinLinesChar mid_lines_6 := by decide

theorem nginx_mid_7_data : nginx_mid_7.data = joinLinesChar mid_lines_7 := by decide

theorem nginx_mid_8_data : nginx_mid_8.data = joinLinesChar mid_lines_8 := by decide

theorem nginx_mid_9_data : nginx_mid_9.data = joinLinesChar mid_lines_9 := by decide

theorem nginx_conf_mid_data :
    nginx_conf_mid.data = '\n' :: '\n' :: (joinLinesChar mid_lines ++ "    ".data) := by
  simp only [nginx_conf_mid, String.data_append]
  rw [nginx_mid_1_data, nginx_mid_2_data, nginx_mid_3_data, nginx_mid_4_data,
    nginx_mid_5_data, nginx_mid_6_data, nginx_mid_7_data, nginx_mid_8_data, nginx_mid_9_data]
  rw [show mid_lines = mid_lines_1 ++ mid_lines_2 ++ mid_lines_3 ++ mid_lines_4 ++ mid_lines_5
    ++ mid_lines_6 ++ mid_lines_7 ++ mid_lines_8 ++ mid_lines_9 from rfl]
  simp [joinLinesChar_append, List.append_assoc]

theorem nginx_conf_tail_data :
    nginx_conf_tail.data = '\n' :: '\n' :: joinLinesChar tail_lines := by decide

theorem upstream_block_data (p : String × Device) :
    (upstream_block p).data = joinLinesChar (upstream_lines p) := by
  simp [upstream_block, upstream_lines, joinLinesChar, String.data_append, List.append_assoc]

theorem location_block_data (p : String × Device) :
    (location_block p).data = joinLinesChar ([] :: location_lines p) := by
  simp [location_block, location_lines, joinLinesChar, String.data_append, List.append_assoc]

/-! ### Newline-freeness of the generated lines -/

theorem upstream_lines_no_newline (p : String × Device) (h : wf_device p) :
    ∀ l ∈ upstream_lines p, ∀ c ∈ l, c ≠ '\n' := by
  obtain ⟨-, -, hid, -, hip, hport⟩ := h
  intro l hl c hc
  simp only [upstream_lines, List.mem_cons, List.not_mem_nil, or_false] at hl
  rcases hl with rfl | rfl | rfl | rfl | rfl
  · simp at hc
  · simp only [List.mem_append] at hc
    rcases hc with (hc | hc) | hc
    · rintro rfl; revert hc; decide
    · exact (safe_id_char_spec c (hid c hc)).1
    · rintro rfl; revert hc; decide
  · simp only [List.mem_append] at hc
    rcases hc with (((hc | hc) | hc) | hc) | hc
    · rintro rfl; revert hc; decide
    · exact (safe_ip_char_spec c (hip c hc)).1
    · rintro rfl; revert hc; decide
    · exact (digit_char_spec c (hport c hc)).1
    · rintro rfl; revert hc; decide
  · rintro rfl; revert hc; decide
  · rintro rfl; revert hc; decide

theorem location_lines_no_newline (p : String × Device) (h : wf_device p) :
    ∀ l ∈ location_lines p, ∀ c ∈ l, c ≠ '\n' := by
  obtain ⟨-, -, hid, hname, -, -⟩ := h
  intro l hl c hc
  simp only [location_lines, List.mem_cons, List.not_mem_nil, or_false] at hl
  rcases hl with rfl | rfl | rfl | rfl | rfl | rfl | rfl | rfl | rfl | rfl | rfl | rfl | rfl
    | rfl | rfl | rfl | rfl | rfl | rfl | rfl | rfl
  · simp only [List.mem_append] at hc
    rcases hc with (hc | hc) | hc
    · rintro rfl; revert hc; decide
    · exact (safe_name_char_spec c (hname c hc)).1
    · rintro rfl; revert hc; decide
  · simp only [List.mem_append] at hc
    rcases hc with (hc | hc) | hc
    · rintro rfl; revert hc; decide
    · exact (safe_id_char_spec c (hid c hc)).1
    · rintro rfl; revert hc; decide
  · simp only [List.mem_append] at hc
    rcases hc with (hc | hc) | hc
    · rintro rfl; revert hc; decide
    · exact (safe_id_char_spec c (hid c hc)).1
    · rintro rfl; revert hc; decide
  · rintro rfl; revert hc; decide
  · rintro rfl; revert hc; decide
  · rintro rfl; revert hc; decide
  · rintro rfl; revert hc; decide
  · rintro rfl; revert hc; decide
  · rintro rfl; revert hc; decide
  · rintro rfl; revert hc; decide
  · rintro rfl; revert hc; decide
  · simp at hc
  · simp only [List.mem_append] at hc
    rcases hc with (hc | hc) | hc
    · rintro rfl; revert hc; decide
    · exact (safe_id_char_spec c (hid c hc)).1
    · rintro rfl; revert hc; decide
  · simp only [List.mem_append] at hc
    rcases hc with (hc | hc) | hc
    · rintro rfl; revert hc; decide
    · exact (safe_id_char_spec c (hid c hc)).1
    · rintro rfl; revert hc; decide
  · rintro rfl; revert hc; decide
  · rintro rfl; revert hc; decide
  · rintro rfl; revert hc; decide
  · rintro rfl; revert hc; decide
  · rintro rfl; revert hc; decide
  · rintro rfl; revert hc; decide
  · rintro rfl; revert hc; decide

/-! ### Assembly: the line decomposition of the full configuration -/

theorem flatMap_shift {β : Type _} (ds : List β) (f : β → List (List Char))
    (R : List (List Char)) :
    ds.flatMap (fun p => [] :: f p) ++ ([] :: R)
      = [] :: (ds.flatMap (fun p => f p ++ [[]]) ++ R) := by
  induction ds with
  | nil => simp
  | cons p t ih => simp [List.flatMap_cons, List.append_assoc, ih]

theorem splitLines_upstream_join (devices : Registry) (rest : List Char)
    (hwf : ∀ p ∈ devices, wf_device p) :
    splitLines ((String.join (devices.map upstream_block)).data ++ rest)
      = devices.flatMap upstream_lines ++ splitLines rest := by
  induction devices with
  | nil => simp [String.join]
  | cons p ds ih =>
    rw [List.map_cons, string_join_cons, String.data_append, List.append_assoc,
      upstream_block_data]
    rw [splitLines_joinLinesChar _ _ (upstream_lines_no_newline p (hwf p (by simp)))]
    rw [ih (fun q hq => hwf q (by simp [hq]))]
    simp [List.append_assoc]

theorem splitLines_loc_join (devices : Registry)
    (hwf : ∀ p ∈ devices, wf_device p) :
    splitLines ((String.join (devices.map location_block)).data
        ++ ('\n' :: '\n' :: joinLinesChar tail_lines))
      = devices.flatMap (fun p => [] :: location_lines p)
          ++ ([] :: [] :: (tail_lines ++ [[]])) := by
  induction devices with
  | nil =>
    have h0 : (String.join (List.map location_block ([] : Registry))).data
        ++ ('\n' :: '\n' :: joinLinesChar tail_lines)
        = '\n' :: ('\n' :: (joinLinesChar tail_lines ++ [])) := by simp [String.join]
    rw [h0, splitLines_newline, splitLines_newline,
      splitLines_joinLinesChar tail_lines _ (by decide)]
    rfl
  | cons p ds ih =>
    have h1 : (String.join (List.map location_block (p :: ds))).data
        ++ ('\n' :: '\n' :: joinLinesChar tail_lines)
        = '\n' :: (joinLinesChar (location_lines p)
            ++ ((String.join (List.map location_block ds)).data
              ++ ('\n' :: '\n' :: joinLinesChar tail_lines))) := by
      rw [List.map_cons, string_join_cons, String.data_append, location_block_data]
      simp [joinLinesChar, List.append_assoc]
    rw [h1, splitLines_newline,
      splitLines_joinLinesChar (location_lines p) _
        (location_lines_no_newline p (hwf p (by simp))),
      ih (fun q hq => hwf q (by simp [hq]))]
    simp [List.append_assoc]

theorem splitLines_splice (devices : Registry)
    (hwf : ∀ p ∈ devices, wf_device p) :
    splitLines ("    ".data ++ ((String.join (devices.map location_block)).data
        ++ ('\n' :: '\n' :: joinLinesChar tail_lines)))
      = "    ".data :: (devices.flatMap (fun p => location_lines p ++ [[]])
          ++ ([] :: (tail_lines ++ [[]]))) := by
  cases devices with
  | nil =>
    have h0 : "    ".data ++ ((String.join (List.map location_block ([] : Registry))).data
        ++ ('\n' :: '\n' :: joinLinesChar tail_lines))
        = "    ".data ++ '\n' :: ('\n' :: (joinLinesChar tail_lines ++ [])) := by
      simp [String.join]
    rw [h0, splitLines_line "    ".data _ (by decide), splitLines_newline,
      splitLines_joinLinesChar tail_lines _ (by decide)]
    rfl
  | cons p ds =>
    have h1 : "    ".data ++ ((String.join (List.map location_block (p :: ds))).data
        ++ ('\n' :: '\n' :: joinLinesChar tail_lines))
        = "    ".data ++ '\n' :: (joinLinesChar (location_lines p)
            ++ ((String.join (List.map location_block ds)).data
              ++ ('\n' :: '\n' :: joinLinesChar tail_lines))) := by
      rw [List.map_cons, string_join_cons, String.data_append, location_block_data]
      simp [joinLinesChar, List.append_assoc]
    rw [h1, splitLines_line "    ".data _ (by decide),
      splitLines_joinLinesChar (location_lines p) _
        (location_lines_no_newline p (hwf p (by simp))),
      splitLines_loc_join ds (fun q hq => hwf q (by simp [hq])),
      flatMap_shift]
    simp [List.append_assoc]

/-- The generated configuration text decomposes, line by line, into
`nginx_lines`. -/
theorem splitLines_nginx_config (devices : Registry)
    (hwf : ∀ p ∈ devices, wf_device p) :
    splitLines (nginx_config devices).data = nginx_lines devices := by
  have h1 : (nginx_config devices).data
      = joinLinesChar header_lines
        ++ ((String.join (devices.map upstream_block)).data
        ++ ('\n' :: ('\n' :: (joinLinesChar mid_lines
        ++ ("    ".data ++ ((String.join (devices.map location_block)).data
        ++ ('\n' :: '\n' :: joinLinesChar tail_lines))))))) := by
    unfold nginx_config
    simp only [String.data_append]
    rw [nginx_conf_header_data, nginx_conf_mid_data, nginx_conf_tail_data]
    simp [List.append_assoc]
  rw [h1,
    splitLines_joinLinesChar header_lines _ (by decide),
    splitLines_upstream_join devices _ hwf,
    splitLines_newline, splitLines_newline,
    splitLines_joinLinesChar mid_lines _ (by decide),
    splitLines_splice devices hwf]
  simp [nginx_lines, List.append_assoc]

/-! ### Pattern-occurrence infrastructure -/

theorem leadsB_iff (p : List Char) : ∀ l, leadsB p l = true ↔ leads p l := by
  induction p with
  | nil =>
    intro l
    exact ⟨fun _ => ⟨l, rfl⟩, fun _ => rfl⟩
  | cons a as ih =>
    intro l
    cases l with
    | nil =>
      simp only [leadsB, leads]
      constructor
      · intro h; exact absurd h (by simp)
      · rintro ⟨t, ht⟩; exact absurd ht (by simp)
    | cons b bs =>
      simp only [leadsB, Bool.and_eq_true, beq_iff_eq, ih bs]
      constructor
      · rintro ⟨rfl, t, rfl⟩
        exact ⟨t, rfl⟩
      · rintro ⟨t, ht⟩
        rw [List.cons_append] at ht
        injection ht with h1 h2
        exact ⟨h1, t, h2⟩

theorem containsSeqB_iff (p : List Char) : ∀ l, containsSeqB p l = true ↔ containsSeq p l := by
  intro l
  induction l with
  | nil =>
    simp only [containsSeqB, leadsB_iff, leads, containsSeq]
    constructor
    · rintro ⟨t, ht⟩
      exact ⟨[], t, ht⟩
    · rintro ⟨s, t, ht⟩
      obtain ⟨hsp, hht⟩ := List.append_eq_nil.1 ht
      obtain ⟨hs, hp⟩ := List.append_eq_nil.1 hsp
      exact ⟨[], by simp [hp]⟩
  | cons c l ih =>
    simp only [containsSeqB, Bool.or_eq_true, leadsB_iff, ih]
    constructor
    · rintro (⟨t, ht⟩ | ⟨s, t, ht⟩)
      · exact ⟨[], t, ht⟩
      · exact ⟨c :: s, t, by simp [ht]⟩
    · rintro ⟨s, t, ht⟩
      cases s with
      | nil => exact Or.inl ⟨t, by simpa using ht⟩
      | cons c' s' =>
        rw [List.cons_append, List.cons_append] at ht
        injection ht with h1 h2
        exact Or.inr ⟨s', t, h2⟩

theorem containsSeq_subset {p l : List Char} (h : containsSeq p l) : ∀ c ∈ p, c ∈ l := by
  obtain ⟨s, t, rfl⟩ := h
  intro c hc
  simp [hc]

theorem not_containsSeq_of_missing {p l : List Char} (c : Char) (hc : c ∈ p)
    (hl : ∀ x ∈ l, x ≠ c) : ¬ containsSeq p l :=
  fun h => hl c (containsSeq_subset h c hc) rfl

theorem leads_getElem {p l : List Char} (h : leads p l) (i : Nat) (hi : i < p.length) :
    l[i]? = p[i]? := by
  obtain ⟨t, rfl⟩ := h
  exact List.getElem?_append_left hi

theorem not_leads_of_getElem {p l : List Char} (i : Nat) (c : Char)
    (hp : p[i]? = some c) (hl : l[i]? ≠ some c) : ¬ leads p l := by
  intro h
  have hi : i < p.length := by
    by_contra hge
    rw [List.getElem?_eq_none (by omega)] at hp
    exact Option.noConfusion hp
  rw [leads_getElem h i hi, hp] at hl
  exact hl rfl

theorem leads_mono {a b l : List Char} (h : leads (a ++ b) l) : leads a l := by
  obtain ⟨t, rfl⟩ := h
  exact ⟨b ++ t, by simp⟩

theorem leads_append (a t : List Char) : leads a (a ++ t) := ⟨t, rfl⟩

theorem sep_eq (a : List Char) : ∀ (b r s : List Char), (∀ c ∈ a, c ≠ '/') →
    (∀ c ∈ b, c ≠ '/') → a ++ '/' :: r = b ++ '/' :: s → a = b ∧ r = s := by
  induction a with
  | nil =>
    intro b r s _ hb h
    cases b with
    | nil =>
      rw [List.nil_append, List.nil_append] at h
      injection h with _ h2
      exact ⟨rfl, h2⟩
    | cons d bs =>
      rw [List.nil_append, List.cons_append] at h
      injection h with h1 _
      exact absurd h1.symm (hb d (by simp))
  | cons c as ih =>
    intro b r s ha hb h
    cases b with
    | nil =>
      rw [List.nil_append, List.cons_append] at h
      injection h with h1 _
      exact absurd h1 (ha c (by simp))
    | cons d bs =>
      rw [List.cons_append, List.cons_append] at h
      injection h with h1 h2
      obtain ⟨hab, hrs⟩ := ih bs r s (fun x hx => ha x (by simp [hx]))
        (fun x hx => hb x (by simp [hx])) h2
      exact ⟨by rw [h1, hab], hrs⟩

theorem string_data_inj {a b : String} (h : a.data = b.data) : a = b := by
  cases a
  cases b
  exact congrArg String.mk h

/-! ### Counting helpers -/

theorem countP_eq_zero_of_forall {α : Type _} (p : α → Bool) (l : List α)
    (h : ∀ a ∈ l, p a = false) : List.countP p l = 0 :=
  List.countP_eq_zero.2 (fun a ha => by simp [h a ha])

theorem countP_flatMap {β : Type _} (p : List Char → Bool) (g : β → Nat) :
    ∀ (l : List β) (f : β → List (List Char)),
    (∀ x ∈ l, List.countP p (f x) = g x) →
    List.countP p (l.flatMap f) = (l.map g).sum := by
  intro l
  induction l with
  | nil => intro f _; rfl
  | cons x t ih =>
    intro f h
    rw [List.flatMap_cons, List.countP_append, h x (by simp),
      ih f (fun y hy => h y (by simp [hy]))]
    simp [Nat.add_comm]

theorem sum_map_ite (id : String) (k : Nat) : ∀ (devices : Registry),
    ((devices.map (fun p => if p.1 = id then k else 0)).sum
      = k * List.count id (devices.map Prod.fst)) := by
  intro devices
  induction devices with
  | nil => simp
  | cons p ds ih =>
    rw [List.map_cons, List.sum_cons, ih, List.map_cons, List.count_cons]
    by_cases h : p.1 = id
    · simp [h, Nat.mul_add, Nat.add_comm]
    · have : ¬ (id = p.1) := fun he => h he.symm
      simp [h, this]

theorem beq_line_false_of_getElem {l pat : List Char} (i : Nat) (c : Char)
    (hp : pat[i]? = some c) (hl : l[i]? ≠ some c) : (l == pat) = false := by
  rw [beq_eq_false_iff_ne]
  rintro rfl
  exact hl hp

theorem countP_eq_line_zero_of_head (pat : List Char) (c : Char) (hc : pat[0]? = some c)
    (L : List (List Char)) (hL : ∀ l ∈ L, l[0]? ≠ some c) :
    List.countP (fun l => l == pat) L = 0 :=
  countP_eq_zero_of_forall _ _ (fun l hl => beq_line_false_of_getElem 0 c hc (hL l hl))

/-! ### Pattern lemmas for the generated lines -/

theorem leadsB_eq_false {p l : List Char} (h : ¬ leads p l) : leadsB p l = false := by
  cases hb : leadsB p l
  · rfl
  · exact absurd ((leadsB_iff p l).1 hb) h

theorem leadsB_eq_true {p l : List Char} (h : leads p l) : leadsB p l = true :=
  (leadsB_iff p l).2 h

theorem not_containsSeq_of_B {p l : List Char} (h : containsSeqB p l = false) :
    ¬ containsSeq p l := by
  intro hc
  rw [← containsSeqB_iff, h] at hc
  exact Bool.noConfusion hc

theorem getElem_ne_of_eq {l : List Char} {i : Nat} (c d : Char)
    (hl : l[i]? = some c) (h : c ≠ d) : l[i]? ≠ some d := by
  rw [hl]
  intro he
  injection he with he'
  exact h he'

theorem getElem_ne_of_none {l : List Char} {i : Nat} (d : Char)
    (hl : l[i]? = none) : l[i]? ≠ some d := by
  rw [hl]
  simp

theorem upat_inj (a b : String) :
    ("upstream ".data ++ a.data ++ " \x7b".data = upat b) ↔ a = b := by
  unfold upat
  constructor
  · intro h
    exact string_data_inj (List.append_cancel_left (List.append_cancel_right h))
  · rintro rfl
    rfl

theorem loc_plain_inj (a b : String) :
    ("    location /".data ++ a.data ++ "/ \x7b".data = loc_plain_pat b) ↔ a = b := by
  unfold loc_plain_pat
  constructor
  · intro h
    exact string_data_inj (List.append_cancel_left (List.append_cancel_right h))
  · rintro rfl
    rfl

theorem loc_ws_inj (a b : String) :
    ("    location /".data ++ a.data ++ "/ws \x7b".data = loc_ws_pat b) ↔ a = b := by
  unfold loc_ws_pat
  constructor
  · intro h
    exact string_data_inj (List.append_cancel_left (List.append_cancel_right h))
  · rintro rfl
    rfl

theorem safe_id_no_slash {a : String} (ha : ∀ c ∈ a.data, safe_id_char c = true) :
    ∀ c ∈ a.data, c ≠ '/' :=
  fun c hc => (safe_id_char_spec c (ha c hc)).2.1

theorem loc_ws_ne_plain (a b : String) (ha : ∀ c ∈ a.data, safe_id_char c = true)
    (hb : ∀ c ∈ b.data, safe_id_char c = true) :
    ("    location /".data ++ a.data ++ "/ws \x7b".data == loc_plain_pat b) = false := by
  rw [beq_eq_false_iff_ne]
  intro h
  unfold loc_plain_pat at h
  have h1 : "    location /".data ++ (a.data ++ '/' :: "ws \x7b".data)
      = "    location /".data ++ (b.data ++ '/' :: " \x7b".data) := by
    simpa [List.append_assoc] using h
  obtain ⟨-, h3⟩ := sep_eq a.data b.data "ws \x7b".data " \x7b".data
    (safe_id_no_slash ha) (safe_id_no_slash hb) (List.append_cancel_left h1)
  exact absurd h3 (by decide)

theorem loc_plain_ne_ws (a b : String) (ha : ∀ c ∈ a.data, safe_id_char c = true)
    (hb : ∀ c ∈ b.data, safe_id_char c = true) :
    ("    location /".data ++ a.data ++ "/ \x7b".data == loc_ws_pat b) = false := by
  rw [beq_eq_false_iff_ne]
  intro h
  unfold loc_ws_pat at h
  have h1 : "    location /".data ++ (a.data ++ '/' :: " \x7b".data)
      = "    location /".data ++ (b.data ++ '/' :: "ws \x7b".data) := by
    simpa [List.append_assoc] using h
  obtain ⟨-, h3⟩ := sep_eq a.data b.data " \x7b".data "ws \x7b".data
    (safe_id_no_slash ha) (safe_id_no_slash hb) (List.append_cancel_left h1)
  exact absurd h3 (by decide)

theorem leads_locroot_iff (a b : String) (tail : List Char)
    (ha : ∀ c ∈ a.data, safe_id_char c = true) (hb : ∀ c ∈ b.data, safe_id_char c = true) :
    leads (loc_root_pat a) ("    location /".data ++ b.data ++ ('/' :: tail)) ↔ a = b := by
  constructor
  · rintro ⟨t, ht⟩
    have ht' : "    location /".data ++ (a.data ++ '/' :: t)
        = "    location /".data ++ (b.data ++ '/' :: tail) := by
      simpa [loc_root_pat, List.append_assoc] using ht
    obtain ⟨h2, -⟩ := sep_eq a.data b.data t tail (safe_id_no_slash ha)
      (safe_id_no_slash hb) (List.append_cancel_left ht')
    exact string_data_inj h2
  · rintro rfl
    exact ⟨tail, by simp [loc_root_pat, List.append_assoc]⟩

theorem not_leads_locroot_dashboard (id : String) (hne : id ≠ "")
    (hsafe : ∀ c ∈ id.data, safe_id_char c = true) :
    ¬ leads (loc_root_pat id) "    location / \x7b".data := by
  rintro ⟨t, ht⟩
  have ht' : "    location /".data ++ (id.data ++ '/' :: t)
      = "    location /".data ++ " \x7b".data := by
    simpa [loc_root_pat, List.append_assoc] using ht
  have h1 := List.append_cancel_left ht'
  cases hd : id.data with
  | nil =>
    apply hne
    apply string_data_inj
    rw [hd]
  | cons c cs =>
    rw [hd, List.cons_append] at h1
    injection h1 with h2 h3
    exact (safe_id_char_spec c (hsafe c (by rw [hd]; simp))).2.2.1 h2

theorem not_leads_locroot_api (id : String) (hapi : id ≠ "api")
    (hsafe : ∀ c ∈ id.data, safe_id_char c = true) :
    ¬ leads (loc_root_pat id) "    location /api/ \x7b".data := by
  rintro ⟨t, ht⟩
  have ht' : "    location /".data ++ (id.data ++ '/' :: t)
      = "    location /".data ++ ("api".data ++ '/' :: " \x7b".data) := by
    simpa [loc_root_pat, List.append_assoc] using ht
  obtain ⟨h2, -⟩ := sep_eq id.data "api".data t " \x7b".data (safe_id_no_slash hsafe)
    (by decide) (List.append_cancel_left ht')
  exact hapi (string_data_inj h2)

theorem leads_root_plain (id : String) : leads (loc_root_pat id) (loc_plain_pat id) :=
  ⟨" \x7b".data, by simp [loc_root_pat, loc_plain_pat, List.append_assoc]⟩

theorem leads_root_ws (id : String) : leads (loc_root_pat id) (loc_ws_pat id) :=
  ⟨"ws \x7b".data, by simp [loc_root_pat, loc_ws_pat, List.append_assoc]⟩

theorem leadsB_root_implies_pre (id : String) (l : List Char)
    (h : leadsB (loc_root_pat id) l = true) : leadsB "    location /".data l = true := by
  rw [leadsB_iff] at h ⊢
  have : loc_root_pat id = "    location /".data ++ (id.data ++ "/".data) := by
    simp [loc_root_pat, List.append_assoc]
  rw [this] at h
  exact leads_mono h

theorem beq_plain_implies_root (id : String) (l : List Char)
    (h : (l == loc_plain_pat id) = true) : leadsB (loc_root_pat id) l = true := by
  rw [beq_iff_eq] at h
  subst h
  exact leadsB_eq_true (leads_root_plain id)

theorem beq_ws_implies_root (id : String) (l : List Char)
    (h : (l == loc_ws_pat id) = true) : leadsB (loc_root_pat id) l = true := by
  rw [beq_iff_eq] at h
  subst h
  exact leadsB_eq_true (leads_root_ws id)

/-! ### Per-section counting lemmas -/

theorem location_lines_split (p : String × Device) :
    location_lines p ++ [[]]
      = ("    # ==================== ".data ++ (str_upper p.2.name).data
            ++ " ====================".data)
          :: ("    location /".data ++ p.1.data ++ "/ \x7b".data)
          :: (loc_inner_a p
              ++ ("    location /".data ++ p.1.data ++ "/ws \x7b".data) :: loc_inner_b p) := by
  simp [location_lines, loc_inner_a, loc_inner_b]

theorem comment_no_l4 (p : String × Device) :
    ("    # ==================== ".data ++ (str_upper p.2.name).data
      ++ " ====================".data)[4]? ≠ some 'l' :=
  getElem_ne_of_eq '#' 'l' rfl (by decide)

theorem loc_inner_a_no_l4 (p : String × Device) : ∀ l ∈ loc_inner_a p, l[4]? ≠ some 'l' := by
  intro l hl
  simp only [loc_inner_a, List.mem_cons, List.not_mem_nil, or_false] at hl
  rcases hl with rfl | rfl | rfl | rfl | rfl | rfl | rfl | rfl | rfl | rfl
  all_goals first
    | exact getElem_ne_of_eq ' ' 'l' rfl (by decide)
    | exact getElem_ne_of_eq '\x7d' 'l' rfl (by decide)
    | exact getElem_ne_of_none 'l' rfl

theorem loc_inner_b_no_l4 (p : String × Device) : ∀ l ∈ loc_inner_b p, l[4]? ≠ some 'l' := by
  intro l hl
  simp only [loc_inner_b, List.mem_cons, List.not_mem_nil, or_false] at hl
  rcases hl with rfl | rfl | rfl | rfl | rfl | rfl | rfl | rfl | rfl
  all_goals first
    | exact getElem_ne_of_eq ' ' 'l' rfl (by decide)
    | exact getElem_ne_of_eq '\x7d' 'l' rfl (by decide)
    | exact getElem_ne_of_none 'l' rfl

theorem loc_preds_false_of_no_l4 (id : String) {l : List Char} (h : l[4]? ≠ some 'l') :
    leadsB (loc_root_pat id) l = false ∧ (l == loc_plain_pat id) = false
      ∧ (l == loc_ws_pat id) = false := by
  have h1 : leadsB (loc_root_pat id) l = false :=
    leadsB_eq_false (not_leads_of_getElem 4 'l' rfl h)
  refine ⟨h1, ?_, ?_⟩
  · cases hb : (l == loc_plain_pat id)
    · rfl
    · rw [beq_plain_implies_root id l hb] at h1
      exact Bool.noConfusion h1
  · cases hb : (l == loc_ws_pat id)
    · rfl
    · rw [beq_ws_implies_root id l hb] at h1
      exact Bool.noConfusion h1

theorem countP_root_zero_of_no_l4 (id : String) (L : List (List Char))
    (hL : ∀ l ∈ L, l[4]? ≠ some 'l') :
    List.countP (fun l => leadsB (loc_root_pat id) l) L = 0 :=
  countP_eq_zero_of_forall _ _ (fun l hl => (loc_preds_false_of_no_l4 id (hL l hl)).1)

theorem countP_plain_zero_of_no_l4 (id : String) (L : List (List Char))
    (hL : ∀ l ∈ L, l[4]? ≠ some 'l') :
    List.countP (fun l => l == loc_plain_pat id) L = 0 :=
  countP_eq_zero_of_forall _ _ (fun l hl => (loc_preds_false_of_no_l4 id (hL l hl)).2.1)

theorem countP_ws_zero_of_no_l4 (id : String) (L : List (List Char))
    (hL : ∀ l ∈ L, l[4]? ≠ some 'l') :
    List.countP (fun l => l == loc_ws_pat id) L = 0 :=
  countP_eq_zero_of_forall _ _ (fun l hl => (loc_preds_false_of_no_l4 id (hL l hl)).2.2)

theorem countP_split_shape (p : List Char → Bool) (c1 c2 c3 : List Char)
    (A B : List (List Char)) :
    List.countP p (c1 :: c2 :: (A ++ c3 :: B))
      = (if p c1 then 1 else 0) + (if p c2 then 1 else 0) + List.countP p A
        + (if p c3 then 1 else 0) + List.countP p B := by
  simp only [List.countP_cons, List.countP_append]
  omega

theorem countP_loc_location (id : String) (p' : String × Device)
    (hid : ∀ c ∈ id.data, safe_id_char c = true)
    (hpid : ∀ c ∈ p'.1.data, safe_id_char c = true) :
    List.countP (fun l => leadsB (loc_root_pat id) l) (location_lines p' ++ [[]])
        = (if p'.1 = id then 2 else 0)
    ∧ List.countP (fun l => l == loc_plain_pat id) (location_lines p' ++ [[]])
        = (if p'.1 = id then 1 else 0)
    ∧ List.countP (fun l => l == loc_ws_pat id) (location_lines p' ++ [[]])
        = (if p'.1 = id then 1 else 0) := by
  rw [location_lines_split p']
  have hcA := loc_preds_false_of_no_l4 id (comment_no_l4 p')
  have zA1 := countP_root_zero_of_no_l4 id (loc_inner_a p') (loc_inner_a_no_l4 p')
  have zA2 := countP_plain_zero_of_no_l4 id (loc_inner_a p') (loc_inner_a_no_l4 p')
  have zA3 := countP_ws_zero_of_no_l4 id (loc_inner_a p') (loc_inner_a_no_l4 p')
  have zB1 := countP_root_zero_of_no_l4 id (loc_inner_b p') (loc_inner_b_no_l4 p')
  have zB2 := countP_plain_zero_of_no_l4 id (loc_inner_b p') (loc_inner_b_no_l4 p')
  have zB3 := countP_ws_zero_of_no_l4 id (loc_inner_b p') (loc_inner_b_no_l4 p')
  have b3 : (("    location /".data ++ p'.1.data ++ "/ws \x7b".data) == loc_plain_pat id)
      = false := loc_ws_ne_plain p'.1 id hpid hid
  have b4 : (("    location /".data ++ p'.1.data ++ "/ \x7b".data) == loc_ws_pat id)
      = false := loc_plain_ne_ws p'.1 id hpid hid
  by_cases h : p'.1 = id
  · have b1 : (("    location /".data ++ p'.1.data ++ "/ \x7b".data) == loc_plain_pat id)
        = true := by
      rw [beq_iff_eq]
      exact (loc_plain_inj p'.1 id).2 h
    have b2 : (("    location /".data ++ p'.1.data ++ "/ws \x7b".data) == loc_ws_pat id)
        = true := by
      rw [beq_iff_eq]
      exact (loc_ws_inj p'.1 id).2 h
    have r1 : leadsB (loc_root_pat id)
        ("    location /".data ++ p'.1.data ++ "/ \x7b".data) = true :=
      leadsB_eq_true ((leads_locroot_iff id p'.1 " \x7b".data hid hpid).2 h.symm)
    have r2 : leadsB (loc_root_pat id)
        ("    location /".data ++ p'.1.data ++ "/ws \x7b".data) = true :=
      leadsB_eq_true ((leads_locroot_iff id p'.1 "ws \x7b".data hid hpid).2 h.symm)
    refine ⟨?_, ?_, ?_⟩
    · rw [countP_split_shape, hcA.1, r1, r2, zA1, zB1]
      simp [h]
    · rw [countP_split_shape, hcA.2.1, b1, b3, zA2, zB2]
      simp [h]
    · rw [countP_split_shape, hcA.2.2, b4, b2, zA3, zB3]
      simp [h]
  · have b1 : (("    location /".data ++ p'.1.data ++ "/ \x7b".data) == loc_plain_pat id)
        = false := by
      rw [beq_eq_false_iff_ne]
      intro he
      exact h ((loc_plain_inj p'.1 id).1 he)
    have b2 : (("    location /".data ++ p'.1.data ++ "/ws \x7b".data) == loc_ws_pat id)
        = false := by
      rw [beq_eq_false_iff_ne]
      intro he
      exact h ((loc_ws_inj p'.1 id).1 he)
    have r1 : leadsB (loc_root_pat id)
        ("    location /".data ++ p'.1.data ++ "/ \x7b".data) = false :=
      leadsB_eq_false
        (fun hld => h ((leads_locroot_iff id p'.1 " \x7b".data hid hpid).1 hld).symm)
    have r2 : leadsB (loc_root_pat id)
        ("    location /".data ++ p'.1.data ++ "/ws \x7b".data) = false :=
      leadsB_eq_false
        (fun hld => h ((leads_locroot_iff id p'.1 "ws \x7b".data hid hpid).1 hld).symm)
    refine ⟨?_, ?_, ?_⟩
    · rw [countP_split_shape, hcA.1, r1, r2, zA1, zB1]
      simp [h]
    · rw [countP_split_shape, hcA.2.1, b1, b3, zA2, zB2]
      simp [h]
    · rw [countP_split_shape, hcA.2.2, b4, b2, zA3, zB3]
      simp [h]

theorem upstream_lines_head_ne (p : String × Device) (c : Char)
    (h1 : c ≠ 'u') (h2 : c ≠ ' ') (h3 : c ≠ '\x7d') :
    ∀ l ∈ upstream_lines p, l[0]? ≠ some c := by
  intro l hl
  simp only [upstream_lines, List.mem_cons, List.not_mem_nil, or_false] at hl
  rcases hl with rfl | rfl | rfl | rfl | rfl
  · exact getElem_ne_of_none c rfl
  · exact getElem_ne_of_eq 'u' c rfl (fun he => h1 he.symm)
  · exact getElem_ne_of_eq ' ' c rfl (fun he => h2 he.symm)
  · exact getElem_ne_of_eq ' ' c rfl (fun he => h2 he.symm)
  · exact getElem_ne_of_eq '\x7d' c rfl (fun he => h3 he.symm)

theorem location_lines_head_ne (p : String × Device) (c : Char) (hc : c ≠ ' ') :
    ∀ l ∈ location_lines p ++ [[]], l[0]? ≠ some c := by
  intro l hl
  rcases List.mem_append.1 hl with hl | hl
  · simp only [location_lines, List.mem_cons, List.not_mem_nil, or_false] at hl
    rcases hl with rfl | rfl | rfl | rfl | rfl | rfl | rfl | rfl | rfl | rfl | rfl | rfl | rfl
      | rfl | rfl | rfl | rfl | rfl | rfl | rfl | rfl
    all_goals first
      | exact getElem_ne_of_none c rfl
      | exact getElem_ne_of_eq ' ' c rfl (fun he => hc he.symm)
  · simp only [List.mem_cons, List.not_mem_nil, or_false] at hl
    subst hl
    exact getElem_ne_of_none c rfl

theorem countP_five (p : List Char → Bool) (a b c d e : List Char) :
    List.countP p [a, b, c, d, e]
      = (if p a then 1 else 0) + (if p b then 1 else 0) + (if p c then 1 else 0)
        + (if p d then 1 else 0) + (if p e then 1 else 0) := by
  simp only [List.countP_cons, List.countP_nil]
  omega

theorem upstream_lines_eq (p' : String × Device) :
    upstream_lines p'
      = [[], "upstream ".data ++ p'.1.data ++ " \x7b".data,
         "    server ".data ++ p'.2.ip.data ++ ":".data ++ (toString p'.2.port).data
           ++ ";".data,
         "    keepalive 2;".data, "\x7d".data] := rfl

theorem countP_upat_upstream (id : String) (p' : String × Device) :
    List.countP (fun l => l == upat id) (upstream_lines p') = if p'.1 = id then 1 else 0 := by
  have e1 : (([] : List Char) == upat id) = false := by
    rw [beq_eq_false_iff_ne]
    intro h
    have h0 : (upat id)[0]? = none := by rw [← h]; rfl
    rw [show (upat id)[0]? = some 'u' from rfl] at h0
    exact Option.noConfusion h0
  have e3 : (("    server ".data ++ p'.2.ip.data ++ ":".data ++ (toString p'.2.port).data
      ++ ";".data) == upat id) = false :=
    beq_line_false_of_getElem 0 'u' rfl (getElem_ne_of_eq ' ' 'u' rfl (by decide))
  have e4 : ("    keepalive 2;".data == upat id) = false :=
    beq_line_false_of_getElem 0 'u' rfl (getElem_ne_of_eq ' ' 'u' rfl (by decide))
  have e5 : ("\x7d".data == upat id) = false :=
    beq_line_false_of_getElem 0 'u' rfl (getElem_ne_of_eq '\x7d' 'u' rfl (by decide))
  by_cases h : p'.1 = id
  · have e2 : (("upstream ".data ++ p'.1.data ++ " \x7b".data) == upat id) = true := by
      rw [beq_iff_eq]
      exact (upat_inj p'.1 id).2 h
    rw [upstream_lines_eq, countP_five, e1, e2, e3, e4, e5]
    simp [h]
  · have e2 : (("upstream ".data ++ p'.1.data ++ " \x7b".data) == upat id) = false := by
      rw [beq_eq_false_iff_ne]
      intro he
      exact h ((upat_inj p'.1 id).1 he)
    rw [upstream_lines_eq, countP_five, e1, e2, e3, e4, e5]
    simp [h]

theorem countP_locroot_upstream (id : String) (p' : String × Device) :
    List.countP (fun l => leadsB (loc_root_pat id) l) (upstream_lines p') = 0 := by
  apply countP_eq_zero_of_forall
  intro l hl
  apply leadsB_eq_false
  simp only [upstream_lines, List.mem_cons, List.not_mem_nil, or_false] at hl
  rcases hl with rfl | rfl | rfl | rfl | rfl
  · exact not_leads_of_getElem 0 ' ' rfl (getElem_ne_of_none ' ' rfl)
  · exact not_leads_of_getElem 0 ' ' rfl (getElem_ne_of_eq 'u' ' ' rfl (by decide))
  · exact not_leads_of_getElem 4 'l' rfl (getElem_ne_of_eq 's' 'l' rfl (by decide))
  · exact not_leads_of_getElem 4 'l' rfl (getElem_ne_of_eq 'k' 'l' rfl (by decide))
  · exact not_leads_of_getElem 4 'l' rfl (getElem_ne_of_none 'l' rfl)

theorem countP_plain_upstream (id : String) (p' : String × Device) :
    List.countP (fun l => l == loc_plain_pat id) (upstream_lines p') = 0 := by
  apply countP_eq_zero_of_forall
  intro l hl
  cases hb : (l == loc_plain_pat id)
  · rfl
  · have hr := beq_plain_implies_root id l hb
    have h0 := countP_locroot_upstream id p'
    rw [List.countP_eq_zero] at h0
    exact absurd hr (by simpa using h0 l hl)

theorem countP_ws_upstream (id : String) (p' : String × Device) :
    List.countP (fun l => l == loc_ws_pat id) (upstream_lines p') = 0 := by
  apply countP_eq_zero_of_forall
  intro l hl
  cases hb : (l == loc_ws_pat id)
  · rfl
  · have hr := beq_ws_implies_root id l hb
    have h0 := countP_locroot_upstream id p'
    rw [List.countP_eq_zero] at h0
    exact absurd hr (by simpa using h0 l hl)

theorem countP_upat_location (id : String) (p' : String × Device) :
    List.countP (fun l => l == upat id) (location_lines p' ++ [[]]) = 0 :=
  countP_eq_line_zero_of_head _ 'u' rfl _ (location_lines_head_ne p' 'u' (by decide))

/-! ### Fixed-section facts (established by evaluation) -/

theorem header_head_no_u : ∀ l ∈ header_lines, l[0]? ≠ some 'u' := by decide

theorem mid_head_no_u : ∀ l ∈ mid_lines, l[0]? ≠ some 'u' := by decide

theorem tail_head_no_u : ∀ l ∈ tail_lines, l[0]? ≠ some 'u' := by decide

theorem header_no_loc : ∀ l ∈ header_lines, leadsB "    location /".data l = false := by decide

theorem tail_no_loc : ∀ l ∈ tail_lines, leadsB "    location /".data l = false := by decide

theorem mid_loc_class : ∀ l ∈ mid_lines, leadsB "    location /".data l = false
    ∨ l = "    location / \x7b".data ∨ l = "    location /api/ \x7b".data := by decide

theorem header_count_api_zone :
    List.countP (fun l => l == api_zone_line) header_lines = 1 := by decide

theorem header_count_ws_zone :
    List.countP (fun l => l == ws_zone_line) header_lines = 1 := by decide

theorem mid_count_api_zone :
    List.countP (fun l => l == api_zone_line) mid_lines = 0 := by decide

theorem mid_count_ws_zone :
    List.countP (fun l => l == ws_zone_line) mid_lines = 0 := by decide

theorem tail_count_api_zone :
    List.countP (fun l => l == api_zone_line) tail_lines = 0 := by decide

theorem tail_count_ws_zone :
    List.countP (fun l => l == ws_zone_line) tail_lines = 0 := by decide

theorem header_no_wsref : ∀ l ∈ header_lines, containsSeqB ws_ref_pat l = false := by decide

theorem mid_no_wsref : ∀ l ∈ mid_lines, containsSeqB ws_ref_pat l = false := by decide

theorem tail_no_wsref : ∀ l ∈ tail_lines, containsSeqB ws_ref_pat l = false := by decide

/-! ### Location-pattern absence on fixed sections -/

theorem loc_preds_false_of_class (id : String) (hne : id ≠ "") (hapi : id ≠ "api")
    (hsafe : ∀ c ∈ id.data, safe_id_char c = true) {l : List Char}
    (hl : leadsB "    location /".data l = false ∨ l = "    location / \x7b".data
        ∨ l = "    location /api/ \x7b".data) :
    leadsB (loc_root_pat id) l = false ∧ (l == loc_plain_pat id) = false
      ∧ (l == loc_ws_pat id) = false := by
  have h1 : leadsB (loc_root_pat id) l = false := by
    cases hb : leadsB (loc_root_pat id) l
    · rfl
    · exfalso
      rcases hl with h | rfl | rfl
      · rw [leadsB_root_implies_pre id l hb] at h
        exact Bool.noConfusion h
      · exact not_leads_locroot_dashboard id hne hsafe ((leadsB_iff _ _).1 hb)
      · exact not_leads_locroot_api id hapi hsafe ((leadsB_iff _ _).1 hb)
  refine ⟨h1, ?_, ?_⟩
  · cases hb : (l == loc_plain_pat id)
    · rfl
    · rw [beq_plain_implies_root id l hb] at h1
      exact Bool.noConfusion h1
  · cases hb : (l == loc_ws_pat id)
    · rfl
    · rw [beq_ws_implies_root id l hb] at h1
      exact Bool.noConfusion h1

theorem class_of_no_loc (L : List (List Char))
    (h : ∀ l ∈ L, leadsB "    location /".data l = false) :
    ∀ l ∈ L, leadsB "    location /".data l = false ∨ l = "    location / \x7b".data
      ∨ l = "    location /api/ \x7b".data :=
  fun l hl => Or.inl (h l hl)

/-! ### Absence of any WebSocket rate-limit reference -/

theorem ws_ref_pat_has_eq : '=' ∈ ws_ref_pat := by decide

theorem ws_ref_pat_has_l : 'l' ∈ ws_ref_pat := by decide

theorem wsref_not_in_upstream (p' : String × Device) (hw : wf_device p') :
    ∀ l ∈ upstream_lines p', ¬ containsSeq ws_ref_pat l := by
  obtain ⟨-, -, hid, -, hip, hport⟩ := hw
  intro l hl
  simp only [upstream_lines, List.mem_cons, List.not_mem_nil, or_false] at hl
  rcases hl with rfl | rfl | rfl | rfl | rfl
  · exact not_containsSeq_of_B (by decide)
  · apply not_containsSeq_of_missing '=' ws_ref_pat_has_eq
    intro x hx
    rcases List.mem_append.1 hx with hx | hx
    · rcases List.mem_append.1 hx with hx | hx
      · rintro rfl; revert hx; decide
      · exact (safe_id_char_spec x (hid x hx)).2.2.2.1
    · rintro rfl; revert hx; decide
  · apply not_containsSeq_of_missing '=' ws_ref_pat_has_eq
    intro x hx
    rcases List.mem_append.1 hx with hx | hx
    · rcases List.mem_append.1 hx with hx | hx
      · rcases List.mem_append.1 hx with hx | hx
        · rcases List.mem_append.1 hx with hx | hx
          · rintro rfl; revert hx; decide
          · exact (safe_ip_char_spec x (hip x hx)).2
        · rintro rfl; revert hx; decide
      · exact (digit_char_spec x (hport x hx)).2
    · rintro rfl; revert hx; decide
  · exact not_containsSeq_of_B (by decide)
  · exact not_containsSeq_of_B (by decide)

theorem wsref_not_in_location (p' : String × Device) (hw : wf_device p') :
    ∀ l ∈ location_lines p' ++ [[]], ¬ containsSeq ws_ref_pat l := by
  obtain ⟨-, -, hid, hname, -, -⟩ := hw
  have hideq : ∀ x ∈ p'.1.data, x ≠ '=' :=
    fun x hx => (safe_id_char_spec x (hid x hx)).2.2.2.1
  intro l hl
  rcases List.mem_append.1 hl with hl | hl
  · simp only [location_lines, List.mem_cons, List.not_mem_nil, or_false] at hl
    rcases hl with rfl | rfl | rfl | rfl | rfl | rfl | rfl | rfl | rfl | rfl | rfl | rfl | rfl
      | rfl | rfl | rfl | rfl | rfl | rfl | rfl | rfl
    · apply not_containsSeq_of_missing 'l' ws_ref_pat_has_l
      intro x hx
      rcases List.mem_append.1 hx with hx | hx
      · rcases List.mem_append.1 hx with hx | hx
        · rintro rfl; revert hx; decide
        · exact (safe_name_char_spec x (hname x hx)).2
      · rintro rfl; revert hx; decide
    · apply not_containsSeq_of_missing '=' ws_ref_pat_has_eq
      intro x hx
      rcases List.mem_append.1 hx with hx | hx
      · rcases List.mem_append.1 hx with hx | hx
        · rintro rfl; revert hx; decide
        · exact hideq x hx
      · rintro rfl; revert hx; decide
    · apply not_containsSeq_of_missing '=' ws_ref_pat_has_eq
      intro x hx
      rcases List.mem_append.1 hx with hx | hx
      · rcases List.mem_append.1 hx with hx | hx
        · rintro rfl; revert hx; decide
        · exact hideq x hx
      · rintro rfl; revert hx; decide
    · exact not_containsSeq_of_B (by decide)
    · exact not_containsSeq_of_B (by decide)
    · exact not_containsSeq_of_B (by decide)
    · exact not_containsSeq_of_B (by decide)
    · exact not_containsSeq_of_B (by decide)
    · exact not_containsSeq_of_B (by decide)
    · exact not_containsSeq_of_B (by decide)
    · exact not_containsSeq_of_B (by decide)
    · exact not_containsSeq_of_B (by decide)
    · apply not_containsSeq_of_missing '=' ws_ref_pat_has_eq
      intro x hx
      rcases List.mem_append.1 hx with hx | hx
      · rcases List.mem_append.1 hx with hx | hx
        · rintro rfl; revert hx; decide
        · exact hideq x hx
      · rintro rfl; revert hx; decide
    · apply not_containsSeq_of_missing '=' ws_ref_pat_has_eq
      intro x hx
      rcases List.mem_append.1 hx with hx | hx
      · rcases List.mem_append.1 hx with hx | hx
        · rintro rfl; revert hx; decide
        · exact hideq x hx
      · rintro rfl; revert hx; decide
    · exact not_containsSeq_of_B (by decide)
    · exact not_containsSeq_of_B (by decide)
    · exact not_containsSeq_of_B (by decide)
    · exact not_containsSeq_of_B (by decide)
    · exact not_containsSeq_of_B (by decide)
    · exact not_containsSeq_of_B (by decide)
    · exact not_containsSeq_of_B (by decide)
  · simp only [List.mem_cons, List.not_mem_nil, or_false] at hl
    subst hl
    exact not_containsSeq_of_B (by decide)

/-! ### Counting over the assembled line list -/

theorem countP_nginx_shape (p : List Char → Bool) (devices : Registry) :
    List.countP p (nginx_lines devices)
      = List.countP p header_lines + List.countP p (devices.flatMap upstream_lines)
        + ((if p [] then 1 else 0) + (if p [] then 1 else 0) + List.countP p mid_lines)
        + ((if p "    ".data then 1 else 0)
            + List.countP p (devices.flatMap (fun q => location_lines q ++ [[]])))
        + ((if p [] then 1 else 0) + List.countP p tail_lines + (if p [] then 1 else 0)) := by
  simp only [nginx_lines, List.countP_append, List.countP_cons, List.countP_nil]
  omega

/-- C10: every execution of `interactive_config` that reaches the
device-configuration loop raises `KeyError` on its first iteration: no entry
of the `devices` table defines a `default_ip` key, yet the loop body reads
`device_info['default_ip']`, so the wizard never completes and never
produces a device registry through this path. -/
theorem interactive_config_first_iteration_keyerror :
    interactive_config_device_loop devices_table = Except.error "KeyError: 'default_ip'"
    ∧ (∀ p ∈ devices_table, dictGet p.2 "default_ip" = none) := by
  exact ⟨rfl, by decide⟩

/-! ## Claim C1 -/

/-- C1: the `/api/devices` aggregation contains exactly one entry per
configured device, keyed by its identifier; a timed-out, refused or failed
query yields an `online: false` entry rather than an omission, and the
response is produced for every outcome assignment (the handler is total). -/
theorem api_devices_one_entry_per_device {α : Type} (devices : Registry)
    (o : String → FetchOutcome α) (h : (devices.map Prod.fst).Nodup) :
    ((api_devices devices o).map Prod.fst = devices.map Prod.fst)
    ∧ (∀ p ∈ devices, List.count p.1 ((api_devices devices o).map Prod.fst) = 1)
    ∧ (∀ p ∈ devices, ∃ e, (p.1, e) ∈ api_devices devices o
        ∧ (device_query_result (o p.1) = none → e.online = false ∧ e.statusFields = none)) := by
  refine ⟨by simp [api_devices], ?_, ?_⟩
  · intro p hp
    have hkeys : (api_devices devices o).map Prod.fst = devices.map Prod.fst := by
      simp [api_devices]
    rw [hkeys]
    exact List.count_eq_one_of_mem h (List.mem_map_of_mem Prod.fst hp)
  · intro p hp
    refine ⟨mk_entry p.2 (device_query_result (o p.1)), List.mem_map_of_mem _ hp, ?_⟩
    intro hq
    simp [mk_entry, hq]

/-- Witness for C1 at the concrete sample registry with every device
unreachable. -/
theorem api_devices_one_entry_per_device_witness :
    (api_devices (α := Nat) sample_registry (fun _ => FetchOutcome.netError)).map Prod.fst
      = sample_registry.map Prod.fst :=
  (api_devices_one_entry_per_device sample_registry _ (by decide)).1

/-! ## Claim C2 -/

/-- C2 counterexample: a device answering HTTP 500 with a JSON-parseable
body is marked `online: true` — the handler never inspects the status code,
so "any non-2xx response is treated as offline" fails on the code. -/
theorem api_devices_non2xx_json_counterexample :
    (api_devices [("greenhouse", sample_greenhouse)]
        (fun _ => FetchOutcome.response 500 (some (0 : Nat)))).map
        (fun q => (q.1, q.2.online)) = [("greenhouse", true)] := rfl

/-- C2 amended: a device's entry is `online: false` exactly when its query
pipeline produced no parsed JSON value — network error, abort/timeout, or a
malformed body.  The HTTP status code is not consulted, so a non-2xx
response whose body parses as JSON is marked `online: true`. -/
theorem api_devices_online_iff_parsed {α : Type} (devices : Registry)
    (o : String → FetchOutcome α) (p : String × Device) (hp : p ∈ devices) :
    ∃ e, (p.1, e) ∈ api_devices devices o
      ∧ (e.online = false ↔ device_query_result (o p.1) = none) := by
  refine ⟨mk_entry p.2 (device_query_result (o p.1)), List.mem_map_of_mem _ hp, ?_⟩
  cases hq : device_query_result (o p.1) <;> simp [mk_entry]

/-- Witness for the amended C2: a malformed 200-response is marked offline. -/
theorem api_devices_online_iff_parsed_witness :
    ∃ e, ("greenhouse", e) ∈ api_devices [("greenhouse", sample_greenhouse)]
        (fun _ => FetchOutcome.response 200 (none : Option Nat))
      ∧ (e.online = false ↔
          device_query_result (FetchOutcome.response 200 (none : Option Nat)) = none) :=
  api_devices_online_iff_parsed [("greenhouse", sample_greenhouse)]
    (fun _ => FetchOutcome.response 200 (none : Option Nat))
    ("greenhouse", sample_greenhouse) (by decide)

/-! ## Claim C3 -/

/-- C3 (amended): all per-device queries are measured from a common start
(the handler issues every `fetch` before awaiting any), and the
`Promise.all` join settles with the slowest task, never with the sum of the
task times; each task's wait for response *headers* is individually capped
by its own 3000 ms abort timer, so the join is bounded by 3000 ms plus the
largest post-header body-read time.  But `clearTimeout` runs before
`await response.json()`, so the body read is unbounded and the overall
one-timeout wall-clock bound holds only when every in-time header response
delivers its body immediately — in particular when all devices are
unreachable.  The response always has exactly `n` entries, with failed
queries marked `online: false`. -/
theorem api_devices_concurrent_bound {α : Type} (devices : Registry)
    (ex : String → QueryExec α) :
    (∀ p ∈ devices, task_settle (ex p.1) ≤ 3000 + body_after_headers (ex p.1))
    ∧ api_devices_wallclock devices ex
        ≤ 3000 + promise_all_settle (devices.map (fun p => body_after_headers (ex p.1)))
    ∧ ((∀ p ∈ devices, body_after_headers (ex p.1) = 0) →
        api_devices_wallclock devices ex ≤ 3000)
    ∧ (api_devices devices (fun k => exec_outcome (ex k))).length = devices.length
    ∧ (∀ p ∈ devices, device_query_result (exec_outcome (ex p.1)) = none →
        ∃ e, (p.1, e) ∈ api_devices devices (fun k => exec_outcome (ex k))
          ∧ e.online = false) := by
  have htask : ∀ e : QueryExec α, task_settle e ≤ 3000 + body_after_headers e := by
    intro e
    cases e with
    | noHeaders t =>
      simp [task_settle, body_after_headers]
    | headers t b s body =>
      by_cases h : 3000 ≤ t
      · simp [task_settle, body_after_headers, h]
      · simp only [task_settle, body_after_headers, if_neg h]
        omega
  refine ⟨fun p _ => htask (ex p.1), ?_, ?_, by simp [api_devices], ?_⟩
  · exact foldr_max_map_le devices (fun p => task_settle (ex p.1))
      (fun p => body_after_headers (ex p.1)) 3000 (fun p _ => htask (ex p.1))
  · intro h0
    refine foldr_max_le _ _ ?_
    intro x hx
    simp only [List.mem_map] at hx
    obtain ⟨p, hp, rfl⟩ := hx
    have hx2 := htask (ex p.1)
    rw [h0 p hp] at hx2
    omega
  · intro p hp hq
    exact ⟨mk_entry p.2 (device_query_result (exec_outcome (ex p.1))),
      List.mem_map_of_mem _ hp, by simp [mk_entry, hq]⟩

/-- Witness for the amended C3 at the sample registry with every device
unreachable (its `fetch` still pending when the abort fires): the join
settles within the 3000 ms timeout. -/
theorem api_devices_concurrent_bound_witness :
    api_devices_wallclock sample_registry
      (fun _ => (QueryExec.noHeaders 60000 : QueryExec Nat)) ≤ 3000 :=
  ((api_devices_concurrent_bound sample_registry
      (fun _ => (QueryExec.noHeaders 60000 : QueryExec Nat))).2.2.1)
    (fun _ _ => rfl)

/-- Counterexample to C3 as stated: a device whose response headers arrive
1 ms after the common start but whose JSON body takes 10000 ms more.  The
abort timer is cleared the moment the headers arrive, so nothing interrupts
the body read: the `Promise.all` join settles only at 10001 ms, well past
the 3000 ms timeout — and the device is even reported `online: true`. -/
theorem api_devices_slow_body_counterexample :
    3000 < api_devices_wallclock [("greenhouse", sample_greenhouse)]
        (fun _ => (QueryExec.headers 1 10000 200 (some (0 : Nat))))
    ∧ api_devices [("greenhouse", sample_greenhouse)]
        (fun _ => exec_outcome (QueryExec.headers 1 10000 200 (some (0 : Nat))))
      = [("greenhouse", ⟨sample_greenhouse, some 0, true⟩)] :=
  ⟨by decide, rfl⟩

/-! ## Claim C6 -/

/-- C6: on a cache miss (including an expired entry) with а failing upstream
fetch, `/api/weather` answers the explicit 500 failure, performs exactly one
fetch (no internal retry), leaves the cache unchanged, and the entry for the
`(lat, lon)` key remains invisible to readers — a failure is never cached as
a value and no stale data past the TTL is served. -/
theorem api_weather_failure_not_cached {α : Type} (cfg : WeatherCfg)
    (qlat qlon : Option String) (ttl now : Nat) (cache : Cache α)
    (la lo : String) (hla : js_or qlat cfg.latitude = some la)
    (hlo : js_or qlon cfg.longitude = some lo)
    (hmiss : cache_get cache ttl now ("weather_" ++ la ++ "_" ++ lo) = none) :
    api_weather cfg qlat qlon ttl now cache (Except.error ())
      = (WeatherResp.fetchFailed, cache, 1)
    ∧ cache_get ((api_weather cfg qlat qlon ttl now cache (Except.error ())).2.1) ttl now
        ("weather_" ++ la ++ "_" ++ lo) = none := by
  have hres : api_weather cfg qlat qlon ttl now cache (Except.error ())
      = (WeatherResp.fetchFailed, cache, 1) := by
    simp [api_weather, hla, hlo, hmiss]
  exact ⟨hres, by rw [hres]; exact hmiss⟩

/-- Witness for C6: a concrete request with configured coordinates, an
empty cache and a failing upstream. -/
theorem api_weather_failure_not_cached_witness :
    api_weather (α := Nat) ⟨some "37.7749", some "-122.4194"⟩ none none 600 0 []
      (Except.error ()) = (WeatherResp.fetchFailed, [], 1) :=
  (api_weather_failure_not_cached ⟨some "37.7749", some "-122.4194"⟩ none none 600 0 []
    "37.7749" "-122.4194" rfl rfl rfl).1

/-! ## Claim C7 -/

/-- C7 counterexample: when the validator rejects the generated text, the
apply step does abort before the reload (the running configuration stays
active), but the prior on-disk state is *not* untouched: the site file and
the `sites-enabled` symlink already point at the new text and the default
site has already been removed. -/
theorem configure_nginx_apply_counterexample :
    (configure_nginx_apply c7_prior_state "new farmhub site" (fun _ => false)).1
      = Except.error (nginx_written c7_prior_state "new farmhub site")
    ∧ nginx_written c7_prior_state "new farmhub site" ≠ c7_prior_state
    ∧ (nginx_written c7_prior_state "new farmhub site").default_enabled
        ≠ c7_prior_state.default_enabled
    ∧ (nginx_written c7_prior_state "new farmhub site").active = c7_prior_state.active := by
  exact ⟨rfl, by decide, by decide, rfl⟩

/-- C7 amended: if the external validator rejects the generated text, the
apply step aborts with a fatal error (the raised `CalledProcessError`), runs
`nginx -t` exactly once with no automatic retry, never reaches the reload,
and the previously *active* configuration remains in effect — but the
on-disk prior state (site file, enabled symlink, removed default site) has
already been modified before validation. -/
theorem configure_nginx_apply_rejected (st : NginxState) (cfg : String)
    (validator : String → Bool) (hv : validator cfg = false) :
    (configure_nginx_apply st cfg validator).1 = Except.error (nginx_written st cfg)
    ∧ (nginx_written st cfg).active = st.active
    ∧ NginxCmd.reload ∉ (configure_nginx_apply st cfg validator).2
    ∧ List.count NginxCmd.test_config (configure_nginx_apply st cfg validator).2 = 1 := by
  refine ⟨?_, rfl, ?_, ?_⟩
  · simp [configure_nginx_apply, hv]
  · simp [configure_nginx_apply, hv]
  · simp [configure_nginx_apply, hv]

/-- Witness for the amended C7 at the concrete prior state. -/
theorem configure_nginx_apply_rejected_witness :
    (configure_nginx_apply c7_prior_state "new farmhub site" (fun _ => false)).1
      = Except.error (nginx_written c7_prior_state "new farmhub site") :=
  (configure_nginx_apply_rejected c7_prior_state "new farmhub site" (fun _ => false) rfl).1

/-! ## Claim C9 -/

/-- A branch whose HTTP status is not 200 fails. -/
theorem ota_branch_success_not200 (fe : Bool) (status : Nat)
    (body : Option (Option String)) (h : status ≠ 200) :
    ota_branch_success ⟨fe, .ok status body⟩ = false := by
  unfold ota_branch_success
  cases fe with
  | false => rfl
  | true =>
    simp only [Bool.true_and]
    split
    · next heq => injection heq with h1 h2; exact absurd h1 h
    · rfl

/-- Behaviour of the filesystem part, continuing from a given trace. -/
theorem upload_ota_fs_spec (trace : List OtaAction) (fs : Option OtaUpload) :
    ((upload_ota_fs trace fs).1 = true ↔ fs.all ota_branch_success = true)
    ∧ (∀ a ∈ (upload_ota_fs trace fs).2,
        a ∈ trace ∨ a = OtaAction.post "/ota" "update" (some "filesystem"))
    ∧ (OtaAction.sleep 10 ∈ (upload_ota_fs trace fs).2 ↔ OtaAction.sleep 10 ∈ trace) := by
  cases fs with
  | none =>
    exact ⟨by simp [upload_ota_fs], fun a ha => Or.inl ha, Iff.rfl⟩
  | some u =>
    obtain ⟨fe, oc⟩ := u
    cases fe with
    | false =>
      have hres : upload_ota_fs trace (some ⟨false, oc⟩) = (false, trace) := by
        simp [upload_ota_fs]
      rw [hres]
      exact ⟨by simp [ota_branch_success], fun a ha => Or.inl ha, Iff.rfl⟩
    | true =>
      cases oc with
      | reqError =>
        have hres : upload_ota_fs trace (some ⟨true, .reqError⟩)
            = (false, trace ++ [OtaAction.post "/ota" "update" (some "filesystem")]) := by
          simp [upload_ota_fs]
        rw [hres]
        refine ⟨by simp [ota_branch_success], ?_, by simp⟩
        intro a ha
        rcases List.mem_append.1 ha with h | h
        · exact Or.inl h
        · exact Or.inr (by simpa using h)
      | ok status body =>
        by_cases hst : status = 200
        · subst hst
          cases body with
          | none =>
            have hres : upload_ota_fs trace (some ⟨true, .ok 200 none⟩)
                = (false, trace ++ [OtaAction.post "/ota" "update" (some "filesystem")]) := by
              simp [upload_ota_fs]
            rw [hres]
            refine ⟨by simp [ota_branch_success], ?_, by simp⟩
            intro a ha
            rcases List.mem_append.1 ha with h | h
            · exact Or.inl h
            · exact Or.inr (by simpa using h)
          | some field =>
            cases field with
            | none =>
              have hres : upload_ota_fs trace (some ⟨true, .ok 200 (some none)⟩)
                  = (false, trace ++ [OtaAction.post "/ota" "update" (some "filesystem")]) := by
                simp [upload_ota_fs]
              rw [hres]
              refine ⟨by simp [ota_branch_success], ?_, by simp⟩
              intro a ha
              rcases List.mem_append.1 ha with h | h
              · exact Or.inl h
              · exact Or.inr (by simpa using h)
            | some s =>
              by_cases hs : s = "success"
              · subst hs
                have hres : upload_ota_fs trace (some ⟨true, .ok 200 (some (some "success"))⟩)
                    = (true, trace ++ [OtaAction.post "/ota" "update" (some "filesystem")]) := by
                  simp [upload_ota_fs]
                rw [hres]
                refine ⟨by simp [ota_branch_success], ?_, by simp⟩
                intro a ha
                rcases List.mem_append.1 ha with h | h
                · exact Or.inl h
                · exact Or.inr (by simpa using h)
              · have hres : upload_ota_fs trace (some ⟨true, .ok 200 (some (some s))⟩)
                    = (false, trace ++ [OtaAction.post "/ota" "update" (some "filesystem")]) := by
                  simp [upload_ota_fs, hs]
                rw [hres]
                refine ⟨by simp [ota_branch_success, hs], ?_, by simp⟩
                intro a ha
                rcases List.mem_append.1 ha with h | h
                · exact Or.inl h
                · exact Or.inr (by simpa using h)
        · have hres : upload_ota_fs trace (some ⟨true, .ok status body⟩)
              = (false, trace ++ [OtaAction.post "/ota" "update" (some "filesystem")]) := by
            simp [upload_ota_fs, hst]
          rw [hres]
          refine ⟨by simp [ota_branch_success_not200 true status body hst], ?_, by simp⟩
          intro a ha
          rcases List.mem_append.1 ha with h | h
          · exact Or.inl h
          · exact Or.inr (by simpa using h)

/-- C9 counterexample: a successful filesystem-only upload is reported
successful yet performs no wait-for-reboot sleep, refuting "after every
successful upload the client waits a fixed delay". -/
theorem upload_ota_fs_no_reboot_wait :
    (upload_ota none (some ota_fs_success_input)).1 = true
    ∧ OtaAction.sleep 10 ∉ (upload_ota none (some ota_fs_success_input)).2 := by
  decide

/-- C9 amended: every upload `upload_ota` performs is a single multipart
POST of the binary to the device's `/ota` endpoint in the one `update`
payload field — the filesystem upload additionally carrying the
`type=filesystem` form field; the run is reported successful iff every
requested branch got HTTP 200 with a JSON `status` field equal to
`"success"`; and the fixed 10-second wait-for-reboot delay happens exactly
after a successful *firmware* upload — a successful filesystem upload does
not wait. -/
theorem upload_ota_protocol (fw fs : Option OtaUpload) :
    ((upload_ota fw fs).1 = true ↔
      fw.all ota_branch_success = true ∧ fs.all ota_branch_success = true)
    ∧ (∀ a ∈ (upload_ota fw fs).2,
        a = OtaAction.sleep 10 ∨ a = OtaAction.post "/ota" "update" none
          ∨ a = OtaAction.post "/ota" "update" (some "filesystem"))
    ∧ (OtaAction.sleep 10 ∈ (upload_ota fw fs).2 ↔
        ∃ u, fw = some u ∧ ota_branch_success u = true) := by
  cases fw with
  | none =>
    obtain ⟨h1, h2, h3⟩ := upload_ota_fs_spec [] fs
    have hres : upload_ota none fs = upload_ota_fs [] fs := rfl
    rw [hres]
    refine ⟨by simpa using h1, ?_, ?_⟩
    · intro a ha
      rcases h2 a ha with h | h
      · simp at h
      · simp [h]
    · rw [h3]
      simp
  | some u =>
    obtain ⟨fe, oc⟩ := u
    have hfail3 : ∀ (u0 : OtaUpload), ota_branch_success u0 = false →
        ¬ ∃ u1, (some u0 : Option OtaUpload) = some u1 ∧ ota_branch_success u1 = true := by
      rintro u0 hu0 ⟨u1, h1, h2⟩
      injection h1 with h1'
      subst h1'
      rw [hu0] at h2
      exact absurd h2 (by simp)
    cases fe with
    | false =>
      have hres : upload_ota (some ⟨false, oc⟩) fs = (false, []) := by
        simp [upload_ota]
      have hsucc : ota_branch_success ⟨false, oc⟩ = false := rfl
      rw [hres]
      refine ⟨?_, by simp, iff_of_false (by simp) (hfail3 _ hsucc)⟩
      refine iff_of_false (by simp) ?_
      rintro ⟨h1, -⟩
      rw [Option.all, hsucc] at h1
      exact absurd h1 (by simp)
    | true =>
      cases oc with
      | reqError =>
        have hres : upload_ota (some ⟨true, .reqError⟩) fs
            = (false, [OtaAction.post "/ota" "update" none]) := by
          simp [upload_ota]
        have hsucc : ota_branch_success ⟨true, .reqError⟩ = false := rfl
        rw [hres]
        refine ⟨?_, by simp, iff_of_false (by simp) (hfail3 _ hsucc)⟩
        refine iff_of_false (by simp) ?_
        rintro ⟨h1, -⟩
        rw [Option.all, hsucc] at h1
        exact absurd h1 (by simp)
      | ok status body =>
        by_cases hst : status = 200
        · subst hst
          cases body with
          | none =>
            have hres : upload_ota (some ⟨true, .ok 200 none⟩) fs
                = (false, [OtaAction.post "/ota" "update" none]) := by
              simp [upload_ota]
            have hsucc : ota_branch_success ⟨true, .ok 200 none⟩ = false := rfl
            rw [hres]
            refine ⟨?_, by simp, iff_of_false (by simp) (hfail3 _ hsucc)⟩
            refine iff_of_false (by simp) ?_
            rintro ⟨h1, -⟩
            rw [Option.all, hsucc] at h1
            exact absurd h1 (by simp)
          | some field =>
            cases field with
            | none =>
              have hres : upload_ota (some ⟨true, .ok 200 (some none)⟩) fs
                  = (false, [OtaAction.post "/ota" "update" none]) := by
                simp [upload_ota]
              have hsucc : ota_branch_success ⟨true, .ok 200 (some none)⟩ = false := rfl
              rw [hres]
              refine ⟨?_, by simp, iff_of_false (by simp) (hfail3 _ hsucc)⟩
              refine iff_of_false (by simp) ?_
              rintro ⟨h1, -⟩
              rw [Option.all, hsucc] at h1
              exact absurd h1 (by simp)
            | some s =>
              by_cases hs : s = "success"
              · subst hs
                obtain ⟨h1, h2, h3⟩ := upload_ota_fs_spec
                  [OtaAction.post "/ota" "update" none, OtaAction.sleep 10] fs
                have hres : upload_ota (some ⟨true, .ok 200 (some (some "success"))⟩) fs
                    = upload_ota_fs
                        [OtaAction.post "/ota" "update" none, OtaAction.sleep 10] fs := by
                  simp [upload_ota]
                have hsucc : ota_branch_success ⟨true, .ok 200 (some (some "success"))⟩
                    = true := rfl
                rw [hres]
                refine ⟨?_, ?_, ?_⟩
                · rw [h1]
                  simp [Option.all, hsucc]
                · intro a ha
                  rcases h2 a ha with h | h
                  · simp at h
                    rcases h with h | h <;> simp [h]
                  · simp [h]
                · rw [h3]
                  refine iff_of_true (by simp) ?_
                  exact ⟨⟨true, .ok 200 (some (some "success"))⟩, rfl, hsucc⟩
              · have hres : upload_ota (some ⟨true, .ok 200 (some (some s))⟩) fs
                    = (false, [OtaAction.post "/ota" "update" none]) := by
                  simp [upload_ota, hs]
                have hsucc : ota_branch_success ⟨true, .ok 200 (some (some s))⟩ = false := by
                  simp [ota_branch_success, hs]
                rw [hres]
                refine ⟨?_, by simp, iff_of_false (by simp) (hfail3 _ hsucc)⟩
                refine iff_of_false (by simp) ?_
                rintro ⟨h1, -⟩
                rw [Option.all, hsucc] at h1
                exact absurd h1 (by simp)
        · have hres : upload_ota (some ⟨true, .ok status body⟩) fs
              = (false, [OtaAction.post "/ota" "update" none]) := by
            simp [upload_ota, hst]
          have hsucc : ota_branch_success ⟨true, .ok status body⟩ = false :=
            ota_branch_success_not200 true status body hst
          rw [hres]
          refine ⟨?_, by simp, iff_of_false (by simp) (hfail3 _ hsucc)⟩
          refine iff_of_false (by simp) ?_
          rintro ⟨h1, -⟩
          rw [Option.all, hsucc] at h1
          exact absurd h1 (by simp)

/-! ## Claim C4 -/

/-- C4: route generation is a pure, deterministic function of the device
registry — two runs on identical registry state yield byte-identical
configuration text.  The embedding makes `nginx_config` a function of the
registry alone, so determinism is definitional. -/
theorem nginx_config_deterministic (r1 r2 : Registry) (h : r1 = r2) :
    nginx_config r1 = nginx_config r2 := by rw [h]

/-- Witness for C4 at the sample registry. -/
theorem nginx_config_deterministic_witness :
    nginx_config sample_registry = nginx_config sample_registry :=
  nginx_config_deterministic sample_registry sample_registry rfl

/-! ## Claim C8 -/

/-- C8: for every well-formed registry, the generated configuration contains,
for each device, exactly one `upstream` declaration line, and exactly two
`location` opening lines whose paths extend the prefix `/{identifier}/` —
one plain HTTP proxy opening and one WebSocket-upgrade opening, each
occurring exactly once; both openings are rooted under `/{identifier}/`
(they literally extend `loc_root_pat`). -/
theorem nginx_config_per_device_blocks (devices : Registry) (hwf : wf_registry devices)
    (p : String × Device) (hp : p ∈ devices) :
    List.countP (fun l => l == upat p.1) (splitLines (nginx_config devices).data) = 1
    ∧ List.countP (fun l => leadsB (loc_root_pat p.1) l)
        (splitLines (nginx_config devices).data) = 2
    ∧ List.countP (fun l => l == loc_plain_pat p.1)
        (splitLines (nginx_config devices).data) = 1
    ∧ List.countP (fun l => l == loc_ws_pat p.1)
        (splitLines (nginx_config devices).data) = 1
    ∧ leads (loc_root_pat p.1) (loc_plain_pat p.1)
    ∧ leads (loc_root_pat p.1) (loc_ws_pat p.1) := by
  obtain ⟨hnd, hwfd⟩ := hwf
  obtain ⟨hne, hapi, hid, -, -, -⟩ := hwfd p hp
  have hcount : List.count p.1 (devices.map Prod.fst) = 1 :=
    List.count_eq_one_of_mem hnd (List.mem_map_of_mem Prod.fst hp)
  rw [splitLines_nginx_config devices hwfd]
  have hext_nil : (([] : List Char))[4]? ≠ some 'l' := by decide
  have hext_sp : ("    ".data)[4]? ≠ some 'l' := by decide
  have pb_nil := loc_preds_false_of_no_l4 p.1 hext_nil
  have pb_sp := loc_preds_false_of_no_l4 p.1 hext_sp
  refine ⟨?_, ?_, ?_, ?_, leads_root_plain p.1, leads_root_ws p.1⟩
  · rw [countP_nginx_shape]
    rw [countP_flatMap _ (fun q => if q.1 = p.1 then 1 else 0) devices upstream_lines
      (fun q _ => countP_upat_upstream p.1 q)]
    rw [sum_map_ite p.1 1 devices, hcount]
    rw [countP_eq_line_zero_of_head (upat p.1) 'u' rfl header_lines header_head_no_u]
    rw [countP_eq_line_zero_of_head (upat p.1) 'u' rfl mid_lines mid_head_no_u]
    rw [countP_eq_line_zero_of_head (upat p.1) 'u' rfl tail_lines tail_head_no_u]
    rw [countP_flatMap _ (fun _ => 0) devices _ (fun q _ => countP_upat_location p.1 q)]
    have hbe : (([] : List Char) == upat p.1) = false :=
      beq_line_false_of_getElem 0 'u' rfl (getElem_ne_of_none 'u' rfl)
    have hbs : ("    ".data == upat p.1) = false :=
      beq_line_false_of_getElem 0 'u' rfl (getElem_ne_of_eq ' ' 'u' rfl (by decide))
    rw [hbe, hbs]
    simp
  · rw [countP_nginx_shape]
    rw [countP_flatMap _ (fun _ => 0) devices upstream_lines
      (fun q _ => countP_locroot_upstream p.1 q)]
    rw [countP_flatMap _ (fun q => if q.1 = p.1 then 2 else 0) devices _
      (fun q hq => (countP_loc_location p.1 q hid (hwfd q hq).2.2.1).1)]
    rw [sum_map_ite p.1 2 devices, hcount]
    rw [countP_eq_zero_of_forall _ header_lines (fun l hl =>
      (loc_preds_false_of_class p.1 hne hapi hid (class_of_no_loc _ header_no_loc l hl)).1)]
    rw [countP_eq_zero_of_forall _ mid_lines (fun l hl =>
      (loc_preds_false_of_class p.1 hne hapi hid (mid_loc_class l hl)).1)]
    rw [countP_eq_zero_of_forall _ tail_lines (fun l hl =>
      (loc_preds_false_of_class p.1 hne hapi hid (class_of_no_loc _ tail_no_loc l hl)).1)]
    rw [pb_nil.1, pb_sp.1]
    simp
  · rw [countP_nginx_shape]
    rw [countP_flatMap _ (fun _ => 0) devices upstream_lines
      (fun q _ => countP_plain_upstream p.1 q)]
    rw [countP_flatMap _ (fun q => if q.1 = p.1 then 1 else 0) devices _
      (fun q hq => (countP_loc_location p.1 q hid (hwfd q hq).2.2.1).2.1)]
    rw [sum_map_ite p.1 1 devices, hcount]
    rw [countP_eq_zero_of_forall _ header_lines (fun l hl =>
      (loc_preds_false_of_class p.1 hne hapi hid (class_of_no_loc _ header_no_loc l hl)).2.1)]
    rw [countP_eq_zero_of_forall _ mid_lines (fun l hl =>
      (loc_preds_false_of_class p.1 hne hapi hid (mid_loc_class l hl)).2.1)]
    rw [countP_eq_zero_of_forall _ tail_lines (fun l hl =>
      (loc_preds_false_of_class p.1 hne hapi hid (class_of_no_loc _ tail_no_loc l hl)).2.1)]
    rw [pb_nil.2.1, pb_sp.2.1]
    simp
  · rw [countP_nginx_shape]
    rw [countP_flatMap _ (fun _ => 0) devices upstream_lines
      (fun q _ => countP_ws_upstream p.1 q)]
    rw [countP_flatMap _ (fun q => if q.1 = p.1 then 1 else 0) devices _
      (fun q hq => (countP_loc_location p.1 q hid (hwfd q hq).2.2.1).2.2)]
    rw [sum_map_ite p.1 1 devices, hcount]
    rw [countP_eq_zero_of_forall _ header_lines (fun l hl =>
      (loc_preds_false_of_class p.1 hne hapi hid (class_of_no_loc _ header_no_loc l hl)).2.2)]
    rw [countP_eq_zero_of_forall _ mid_lines (fun l hl =>
      (loc_preds_false_of_class p.1 hne hapi hid (mid_loc_class l hl)).2.2)]
    rw [countP_eq_zero_of_forall _ tail_lines (fun l hl =>
      (loc_preds_false_of_class p.1 hne hapi hid (class_of_no_loc _ tail_no_loc l hl)).2.2)]
    rw [pb_nil.2.2, pb_sp.2.2]
    simp

/-- Witness for C8: the greenhouse device of the sample registry gets exactly
one upstream declaration line. -/
theorem nginx_config_per_device_blocks_witness :
    List.countP (fun l => l == upat "greenhouse")
      (splitLines (nginx_config sample_registry).data) = 1 :=
  (nginx_config_per_device_blocks sample_registry (by decide)
    ("greenhouse", sample_greenhouse) (by decide)).1

/-! ## Claim C5 -/

/-- C5 counterexample: for the concrete sample registry, the generated
configuration has its WebSocket-upgrade location line for `coop1`, yet no
line anywhere in the configuration contains a `limit_req zone=ws_limit`
directive — so the WebSocket-upgrade locations do not reference the
WebSocket rate-limit zone, refuting the claim as stated. -/
theorem ws_zone_unreferenced_counterexample :
    loc_ws_pat "coop1" ∈ nginx_lines sample_registry
    ∧ (∀ l ∈ nginx_lines sample_registry, containsSeqB ws_ref_pat l = false)
    ∧ splitLines (nginx_config sample_registry).data = nginx_lines sample_registry := by
  refine ⟨by decide, by decide, splitLines_nginx_config sample_registry (by decide)⟩

/-- C5 amended: the generated configuration declares the two independent
rate-limit zones exactly once each; the generated `/api/` location is
immediately followed by the `limit_req` directive referencing the API zone;
but the WebSocket zone is declared and never referenced — no line of the
configuration contains `limit_req zone=ws_limit`, in particular the
generated WebSocket-upgrade locations carry no rate-limit directive. -/
theorem nginx_config_rate_zones (devices : Registry) (hwf : wf_registry devices) :
    List.countP (fun l => l == api_zone_line) (splitLines (nginx_config devices).data) = 1
    ∧ List.countP (fun l => l == ws_zone_line) (splitLines (nginx_config devices).data) = 1
    ∧ containsSeq [api_loc_line, api_limit_line] (splitLines (nginx_config devices).data)
    ∧ ∀ l ∈ splitLines (nginx_config devices).data, ¬ containsSeq ws_ref_pat l := by
  obtain ⟨hnd, hwfd⟩ := hwf
  rw [splitLines_nginx_config devices hwfd]
  refine ⟨?_, ?_, ?_, ?_⟩
  · rw [countP_nginx_shape]
    rw [countP_flatMap _ (fun _ => 0) devices upstream_lines
      (fun q _ => countP_eq_line_zero_of_head api_zone_line 'l' rfl _
        (upstream_lines_head_ne q 'l' (by decide) (by decide) (by decide)))]
    rw [countP_flatMap _ (fun _ => 0) devices _
      (fun q _ => countP_eq_line_zero_of_head api_zone_line 'l' rfl _
        (location_lines_head_ne q 'l' (by decide)))]
    rw [header_count_api_zone, mid_count_api_zone, tail_count_api_zone]
    have hbe : (([] : List Char) == api_zone_line) = false :=
      beq_line_false_of_getElem 0 'l' rfl (getElem_ne_of_none 'l' rfl)
    have hbs : ("    ".data == api_zone_line) = false :=
      beq_line_false_of_getElem 0 'l' rfl (getElem_ne_of_eq ' ' 'l' rfl (by decide))
    rw [hbe, hbs]
    simp
  · rw [countP_nginx_shape]
    rw [countP_flatMap _ (fun _ => 0) devices upstream_lines
      (fun q _ => countP_eq_line_zero_of_head ws_zone_line 'l' rfl _
        (upstream_lines_head_ne q 'l' (by decide) (by decide) (by decide)))]
    rw [countP_flatMap _ (fun _ => 0) devices _
      (fun q _ => countP_eq_line_zero_of_head ws_zone_line 'l' rfl _
        (location_lines_head_ne q 'l' (by decide)))]
    rw [header_count_ws_zone, mid_count_ws_zone, tail_count_ws_zone]
    have hbe : (([] : List Char) == ws_zone_line) = false :=
      beq_line_false_of_getElem 0 'l' rfl (getElem_ne_of_none 'l' rfl)
    have hbs : ("    ".data == ws_zone_line) = false :=
      beq_line_false_of_getElem 0 'l' rfl (getElem_ne_of_eq ' ' 'l' rfl (by decide))
    rw [hbe, hbs]
    simp
  · refine ⟨header_lines ++ devices.flatMap upstream_lines
      ++ ([] :: [] :: (mid_lines_1 ++ mid_lines_2 ++ mid_lines_3 ++ mid_lines_4
        ++ mid_lines_5 ++ mid_lines_6
        ++ ["    # Main dashboard".data, "    location / \x7b".data,
            "        try_files $uri $uri/ /index.html;".data, "    \x7d".data, [],
            "    # API endpoints (Pi backend)".data])),
      ["        proxy_pass http://127.0.0.1:3000;".data,
       "        proxy_http_version 1.1;".data,
       "        proxy_set_header Host $host;".data] ++ mid_lines_9
      ++ ("    ".data :: devices.flatMap (fun q => location_lines q ++ [[]]))
      ++ ([] :: tail_lines ++ [[]]), ?_⟩
    simp [nginx_lines, mid_lines, mid_lines_1, mid_lines_2, mid_lines_3, mid_lines_4,
      mid_lines_5, mid_lines_6, mid_lines_7, mid_lines_8, mid_lines_9, api_loc_line,
      api_limit_line, List.append_assoc]
  · intro l hl
    rcases List.mem_append.1 hl with hl | hl
    · rcases List.mem_append.1 hl with hl | hl
      · rcases List.mem_append.1 hl with hl | hl
        · rcases List.mem_append.1 hl with hl | hl
          · exact not_containsSeq_of_B (header_no_wsref l hl)
          · obtain ⟨q, hq, hlq⟩ := List.mem_flatMap.1 hl
            exact wsref_not_in_upstream q (hwfd q hq) l hlq
        · rcases List.mem_cons.1 hl with rfl | hl
          · exact not_containsSeq_of_B (by decide)
          · rcases List.mem_cons.1 hl with rfl | hl
            · exact not_containsSeq_of_B (by decide)
            · exact not_containsSeq_of_B (mid_no_wsref l hl)
      · rcases List.mem_cons.1 hl with rfl | hl
        · exact not_containsSeq_of_B (by decide)
        · obtain ⟨q, hq, hlq⟩ := List.mem_flatMap.1 hl
          exact wsref_not_in_location q (hwfd q hq) l hlq
    · rcases List.mem_cons.1 hl with rfl | hl
      · exact not_containsSeq_of_B (by decide)
      · rcases List.mem_append.1 hl with hl | hl
        · exact not_containsSeq_of_B (tail_no_wsref l hl)
        · rcases List.mem_cons.1 hl with rfl | hl
          · exact not_containsSeq_of_B (by decide)
          · exact absurd hl (List.not_mem_nil l)

/-- Witness for the amended C5 at the sample registry. -/
theorem nginx_config_rate_zones_witness :
    List.countP (fun l => l == api_zone_line)
      (splitLines (nginx_config sample_registry).data) = 1 :=
  (nginx_config_rate_zones sample_registry (by decide)).1

end FarmHub
